import Mathlib

/-!
# Cactro backend: a GitHub proxy service

A shallow embedding of the Go sources

* `config/config.go` (the configuration record),
* `internal/services/github_service.go` and `github_interface.go` (the remote API client),
* `internal/api/handlers/github_handler.go` (the three request handlers),
* `internal/api/middleware/middleware.go` and `internal/api/routes/routes.go` (the router),

followed by theorems about them.

Conventions of the embedding.

* Side effects are explicit: every operation takes a `World` and returns the new one.  The world
  holds the state of whatever answers the outbound HTTP calls, the list of outbound requests sent
  so far (oldest first) and the records written through logrus.
* Library code that is not part of the repository (`net/url`, `net/http` transport,
  `encoding/json`, the CORS middleware of gin-contrib) is a parameter: the record `Runtime` for
  the pure functions, the field `client` of the service for the transport.  Every theorem is
  stated for all runtimes and all transports.  The examples run on concrete runtimes; the one
  named `decodingRuntime` reads JSON text with the parser of the section "JSON text".
* A Go result pair `(value, error)` is an `Except GoError value`.
* The package `internal/models` is not among the sources.  Its records, the validation of an
  issue request and, for the round trip of a profile through JSON, the documents of the records
  (as values, not as text) are modelled from the specification and the tests; each such
  definition says so.
-/

namespace Cactro

/-! ## config/config.go -/

/-- ServerConfig holds server-specific configuration. -/
structure ServerConfig where
  Port : String
  GinMode : String
  deriving DecidableEq, Repr

/-- GitHubConfig holds GitHub API configuration. -/
structure GitHubConfig where
  Token : String
  Username : String
  deriving DecidableEq, Repr

/-- CORSConfig holds CORS configuration. -/
structure CORSConfig where
  AllowOrigins : List String
  deriving DecidableEq, Repr

/-- Config holds all configuration for the application. -/
structure Config where
  Server : ServerConfig
  GitHub : GitHubConfig
  CORS : CORSConfig
  LogLevel : String
  deriving DecidableEq, Repr

/-! ## internal/models

The package `internal/models` is imported by every source file but is not among them.  Its records
are reconstructed from the data model of the specification and from the field names used by the
handlers, the service and their tests. -/

/-- Modelled from the spec: the record `models.UserResponse` (package `internal/models` is
missing).  "UserProfile: login: string, display name: string, follower count: integer, following
count: integer"; the field names are the ones the tests use. -/
structure UserResponse where
  Login : String
  Name : String
  Followers : Int
  Following : Int
  deriving DecidableEq, Repr

/-- Modelled from the spec: the record `models.Repository` (package `internal/models` is
missing).  "Repository: name: string, full name: string, description: optional string". -/
structure Repository where
  Name : String
  FullName : String
  Description : Option String
  deriving DecidableEq, Repr

/-- Modelled from the spec: the record `models.GithubProfile` (package `internal/models` is
missing).  "ProfileBundle: user: UserProfile, repositories: ordered sequence of Repository". -/
structure GithubProfile where
  User : UserResponse
  Repositories : List Repository
  deriving DecidableEq, Repr

/-- Modelled from the spec: the record `models.IssueRequest` (package `internal/models` is
missing).  "IssueRequest: title: string (required, non-empty), body: string (required)". -/
structure IssueRequest where
  Title : String
  Body : String
  deriving DecidableEq, Repr

/-- Modelled from the spec: the record `models.IssueResponse` (package `internal/models` is
missing).  "IssueResponse: issue number: integer, title: string, web URL: string". -/
structure IssueResponse where
  Number : Int
  Title : String
  HTMLURL : String
  deriving DecidableEq, Repr

/-- Modelled from the spec: the record `models.ErrorResponse` (package `internal/models` is
missing).  "ErrorResponse: message: string", built in the handlers as
`models.ErrorResponse{Error: ...}`. -/
structure ErrorResponse where
  Error : String
  deriving DecidableEq, Repr

/-- Modelled from the spec: the validation that gin runs on a decoded `models.IssueRequest`, read
off the `binding` tags of the missing package `internal/models`.  "`IssueRequest.title` and
`.body` must be non-empty at the handler boundary - request rejected with a validation error
otherwise."  A field that is absent from the JSON document is left at the Go zero value `""`, so
"missing" and "empty" are the same case here.  The result is the name of the first field that
fails, if any. -/
def IssueRequest.validate (r : IssueRequest) : Option String :=
  if r.Title = "" then some "Title"
  else if r.Body = "" then some "Body"
  else none

/-! ## Go values used by the code -/

/-- A Go `error` value, by the way it was built. -/
inductive GoError where
  /-- The value of `errors.New(text)`, or an error produced by a library. -/
  | New (text : String)
  /-- The value of `fmt.Errorf(msg + ": %w", cause)`. -/
  | Wrap (msg : String) (cause : GoError)
  /-- The value of `fmt.Errorf("GitHub API returned status code %d", code)`. -/
  | Status (code : Int)
  deriving DecidableEq, Repr

/-- The method `Error()` of a Go error: its message. -/
def GoError.Error : GoError → String
  | .New text => text
  | .Wrap msg cause => msg ++ ": " ++ cause.Error
  | .Status code => "GitHub API returned status code " ++ toString code

/-- The outbound `*http.Request`, as far as the client fills it in. -/
structure HttpRequest where
  Method : String
  URL : String
  Header : List (String × String)
  Body : Option String
  deriving DecidableEq, Repr

/-- The method `req.Header.Set(key, value)`: the entry for `key` is replaced. -/
def HttpRequest.SetHeader (req : HttpRequest) (key value : String) : HttpRequest :=
  { req with Header := req.Header.filter (fun kv => kv.1 ≠ key) ++ [(key, value)] }

/-- The inbound `*http.Response`, as far as the client reads it. -/
structure HttpResponse where
  StatusCode : Int
  Body : String
  deriving DecidableEq, Repr

/-- The values this repository hands to `json.Marshal`, directly or through `c.JSON`. -/
inductive JSONValue where
  | ErrorResponse (v : Cactro.ErrorResponse)
  | GithubProfile (v : Cactro.GithubProfile)
  | Repository (v : Cactro.Repository)
  | IssueRequest (v : Cactro.IssueRequest)
  | IssueResponse (v : Cactro.IssueResponse)
  /-- A `gin.H` map with string values. -/
  | H (entries : List (String × String))
  deriving DecidableEq, Repr

/-- The library functions the code calls, taken as parameters. -/
structure Runtime where
  /-- The check `net/url.Parse` that `http.NewRequest` runs on the URL: `Except.ok ()` when the URL
  parses, the error otherwise. -/
  urlParse : String → Except GoError Unit
  /-- The call `json.Marshal(v)`; it cannot fail on the values of `JSONValue`. -/
  Marshal : JSONValue → String
  /-- The call `json.NewDecoder(body).Decode(&v)` for `v` a `models.UserResponse`. -/
  decodeUser : String → Except GoError UserResponse
  /-- The same for a `models.Repository`. -/
  decodeRepository : String → Except GoError Repository
  /-- The same for a `[]models.Repository`. -/
  decodeRepositories : String → Except GoError (List Repository)
  /-- The same for a `models.IssueResponse`. -/
  decodeIssueResponse : String → Except GoError IssueResponse
  /-- The same for a `models.IssueRequest` (the decoding step of `c.ShouldBindJSON`). -/
  decodeIssueRequest : String → Except GoError IssueRequest
  /-- The gin-contrib CORS middleware built from the configuration: the status it aborts the request
  with, if it does.  Its arguments are the allowed origins, the method and the headers of the
  request. -/
  cors : List String → String → List (String × String) → Option Nat
  /-- The trailing-slash recommendation of gin's route tree for a request that no route matches:
  whether a route exists for the path with the final slash removed (or added).  Its arguments are
  the registered routes, as pairs of method and path, and the method and path of the request. -/
  tsr : List (String × String) → String → String → Bool

/-- One record written through logrus. -/
structure LogEntry where
  level : String
  msg : String
  fields : List (String × String)
  deriving DecidableEq, Repr

/-- One outbound call: the request handed to the transport and what came back, a response or a
transport error. -/
structure Exchange where
  req : HttpRequest
  res : Except GoError HttpResponse

/-- The state the program acts on: `remote` is the state of whatever answers the outbound calls,
`exchanges` the outbound calls made so far, oldest first, and `log` the records written through
logrus, oldest first. -/
structure World (σ : Type) where
  remote : σ
  exchanges : List Exchange
  log : List LogEntry

/-- The outbound requests handed to the transport so far, oldest first. -/
def World.sent {σ : Type} (w : World σ) : List HttpRequest :=
  w.exchanges.map Exchange.req

/-- A logrus call `logrus.WithFields(fields).<level>(msg)`. -/
def World.logrus {σ : Type} (w : World σ) (level msg : String) (fields : List (String × String)) :
    World σ :=
  { w with log := w.log ++ [⟨level, msg, fields⟩] }

/-- The call `http.NewRequest(method, url, body)`: it fails when the URL does not parse, and
otherwise gives a request with no header set.  (The methods used, GET and POST, are valid.) -/
def NewRequest (rt : Runtime) (method url : String) (body : Option String) :
    Except GoError HttpRequest :=
  match rt.urlParse url with
  | .error err => .error err
  | .ok () => .ok { Method := method, URL := url, Header := [], Body := body }

/-! ## internal/services/github_service.go -/

/-- GitHubService provides methods for interacting with the GitHub API.  The field `client` is
`(*http.Client).Do` with the remote behind it: given a request and the state of the remote it
answers with a response or a transport error, and a new state of the remote. -/
structure GitHubService (σ : Type) where
  config : Config
  client : HttpRequest → σ → Except GoError HttpResponse × σ

/-- The call `s.client.Do(req)`: the request is handed to the transport, which is recorded in
`exchanges` together with the answer, and the remote moves on. -/
def GitHubService.Do {σ : Type} (s : GitHubService σ) (req : HttpRequest) (w : World σ) :
    Except GoError HttpResponse × World σ :=
  ((s.client req w.remote).1,
    { w with remote := (s.client req w.remote).2,
             exchanges := w.exchanges ++ [⟨req, (s.client req w.remote).1⟩] })

/-- The two headers every outbound request gets: `Authorization` and `Accept`. -/
def GitHubService.authorize {σ : Type} (s : GitHubService σ) (req : HttpRequest) : HttpRequest :=
  (req.SetHeader "Authorization" ("token " ++ s.config.GitHub.Token)).SetHeader
    "Accept" "application/vnd.github.v3+json"

/-- The log record written when the remote answers with an unexpected status. -/
def apiErrorFields (resp : HttpResponse) : List (String × String) :=
  [("status_code", toString resp.StatusCode), ("response", resp.Body)]

/-- GetRepository retrieves details about a specific repository. -/
def GitHubService.GetRepository {σ : Type} (rt : Runtime) (s : GitHubService σ) (repoName : String)
    (w : World σ) : Except GoError Repository × World σ :=
  let url := "https://api.github.com/repos/" ++ s.config.GitHub.Username ++ "/" ++ repoName
  match NewRequest rt "GET" url none with
  | .error err => (.error (.Wrap "failed to create request" err), w)
  | .ok req =>
    match s.Do (s.authorize req) w with
    | (.error err, w1) => (.error (.Wrap "failed to send request" err), w1)
    | (.ok resp, w1) =>
      if resp.StatusCode ≠ 200 then
        (.error (.Status resp.StatusCode), w1.logrus "error" "GitHub API error" (apiErrorFields resp))
      else
        match rt.decodeRepository resp.Body with
        | .error err => (.error (.Wrap "failed to decode response" err), w1)
        | .ok repo => (.ok repo, w1)

/-- CreateIssue creates a new issue in a repository.  (The error branch after `json.Marshal` is
not reachable: marshalling a record of two strings cannot fail.) -/
def GitHubService.CreateIssue {σ : Type} (rt : Runtime) (s : GitHubService σ) (repoName : String)
    (issue : IssueRequest) (w : World σ) : Except GoError IssueResponse × World σ :=
  let url := "https://api.github.com/repos/" ++ s.config.GitHub.Username ++ "/" ++ repoName ++ "/issues"
  let body := rt.Marshal (.IssueRequest issue)
  match NewRequest rt "POST" url (some body) with
  | .error err => (.error (.Wrap "failed to create request" err), w)
  | .ok req =>
    match s.Do ((s.authorize req).SetHeader "Content-Type" "application/json") w with
    | (.error err, w1) => (.error (.Wrap "failed to send request" err), w1)
    | (.ok resp, w1) =>
      if resp.StatusCode ≠ 201 then
        (.error (.Status resp.StatusCode), w1.logrus "error" "GitHub API error" (apiErrorFields resp))
      else
        match rt.decodeIssueResponse resp.Body with
        | .error err => (.error (.Wrap "failed to decode response" err), w1)
        | .ok issueResponse => (.ok issueResponse, w1)

/-- The function getUser retrieves the user's GitHub profile. -/
def GitHubService.getUser {σ : Type} (rt : Runtime) (s : GitHubService σ) (w : World σ) :
    Except GoError UserResponse × World σ :=
  let url := "https://api.github.com/users/" ++ s.config.GitHub.Username
  match NewRequest rt "GET" url none with
  | .error err => (.error (.Wrap "failed to create request" err), w)
  | .ok req =>
    match s.Do (s.authorize req) w with
    | (.error err, w1) => (.error (.Wrap "failed to send request" err), w1)
    | (.ok resp, w1) =>
      if resp.StatusCode ≠ 200 then
        (.error (.Status resp.StatusCode), w1.logrus "error" "GitHub API error" (apiErrorFields resp))
      else
        match rt.decodeUser resp.Body with
        | .error err => (.error (.Wrap "failed to decode response" err), w1)
        | .ok user => (.ok user, w1)

/-- The function getUserRepositories retrieves the user's repositories. -/
def GitHubService.getUserRepositories {σ : Type} (rt : Runtime) (s : GitHubService σ) (w : World σ) :
    Except GoError (List Repository) × World σ :=
  let url := "https://api.github.com/users/" ++ s.config.GitHub.Username ++
    "/repos?type=owner&sort=updated&per_page=100"
  match NewRequest rt "GET" url none with
  | .error err => (.error (.Wrap "failed to create request" err), w)
  | .ok req =>
    match s.Do (s.authorize req) w with
    | (.error err, w1) => (.error (.Wrap "failed to send request" err), w1)
    | (.ok resp, w1) =>
      if resp.StatusCode ≠ 200 then
        (.error (.Status resp.StatusCode), w1.logrus "error" "GitHub API error" (apiErrorFields resp))
      else
        match rt.decodeRepositories resp.Body with
        | .error err => (.error (.Wrap "failed to decode response" err), w1)
        | .ok repos => (.ok repos, w1)

/-- GetUserProfile retrieves the user's GitHub profile. -/
def GitHubService.GetUserProfile {σ : Type} (rt : Runtime) (s : GitHubService σ) (w : World σ) :
    Except GoError GithubProfile × World σ :=
  match s.getUser rt w with
  | (.error err, w1) => (.error err, w1)
  | (.ok user, w1) =>
    match s.getUserRepositories rt w1 with
    | (.error err, w2) => (.error err, w2)
    | (.ok repos, w2) => (.ok { User := user, Repositories := repos }, w2)

/-! ## internal/services/github_interface.go -/

/-- GitHubServiceInterface defines the interface for GitHub service operations. -/
structure GitHubServiceInterface (σ : Type) where
  GetUserProfile : World σ → Except GoError GithubProfile × World σ
  GetRepository : String → World σ → Except GoError Repository × World σ
  CreateIssue : String → IssueRequest → World σ → Except GoError IssueResponse × World σ

/-- NewGitHubService creates a new GitHubService, returned behind the interface. -/
def NewGitHubService {σ : Type} (rt : Runtime) (s : GitHubService σ) : GitHubServiceInterface σ where
  GetUserProfile := s.GetUserProfile rt
  GetRepository := s.GetRepository rt
  CreateIssue := s.CreateIssue rt

/-! ## gin: the request context -/

/-- The inbound `*http.Request`, as far as the router and the handlers read it.  `Path` is the
decoded `URL.Path`. -/
structure Request where
  Method : String
  Path : String
  Header : List (String × String)
  Body : String
  deriving DecidableEq, Repr

/-- The `*gin.Context` of one request: the request and the path parameters the router bound. -/
structure Context where
  Request : Request
  Params : List (String × String)
  deriving DecidableEq, Repr

/-- The method `c.Param(key)`: the value of the first parameter named `key`, or the empty string. -/
def Context.Param (c : Context) (key : String) : String :=
  match c.Params.find? (fun kv => kv.1 = key) with
  | some kv => kv.2
  | none => ""

/-- The response written to the client: status code and body. -/
structure Response where
  Status : Nat
  Body : String
  deriving DecidableEq, Repr

/-- What running a handler (or a chain of handlers) on a request ends in. -/
inductive Outcome where
  /-- A response was written. -/
  | wrote (r : Response)
  /-- The router answered with `http.Redirect` and status `code`. -/
  | redirect (code : Nat)
  /-- The handler panicked with `value` and nothing recovered it; `written` is the response it had
  written before, if it had written one. -/
  | panicked (value : String) (written : Option Response)
  deriving DecidableEq, Repr

/-- A `gin.HandlerFunc`, run to completion. -/
abbrev HandlerFunc (σ : Type) := Context → World σ → Outcome × World σ

/-- The method `c.JSON(code, obj)`. -/
def JSON (rt : Runtime) (code : Nat) (obj : JSONValue) : Outcome :=
  .wrote { Status := code, Body := rt.Marshal obj }

/-- The method `c.ShouldBindJSON(&issueRequest)`: the body is decoded, then the decoded record is
validated. -/
def ShouldBindJSON (rt : Runtime) (c : Context) : Except GoError IssueRequest :=
  match rt.decodeIssueRequest c.Request.Body with
  | .error err => .error err
  | .ok issueRequest =>
    match issueRequest.validate with
    | some field => .error (.New ("validation failed on field " ++ field))
    | none => .ok issueRequest

/-! ## internal/api/handlers/github_handler.go -/

/-- GitHubHandler handles GitHub-related API requests.  (The source declares the field with the
concrete service type; `routes.go` and the tests construct the handler from the interface, which
is what is modelled.) -/
structure GitHubHandler (σ : Type) where
  service : GitHubServiceInterface σ

/-- NewGitHubHandler creates a new GitHubHandler. -/
def NewGitHubHandler {σ : Type} (service : GitHubServiceInterface σ) : GitHubHandler σ :=
  { service := service }

/-- GetUserProfile handles GET /github. -/
def GitHubHandler.GetUserProfile {σ : Type} (rt : Runtime) (h : GitHubHandler σ) : HandlerFunc σ :=
  fun _ w =>
    match h.service.GetUserProfile w with
    | (.error err, w1) =>
      (JSON rt 500 (.ErrorResponse { Error := "Failed to retrieve GitHub profile" }),
        w1.logrus "error" "Failed to get user profile" [("error", err.Error)])
    | (.ok profile, w1) => (JSON rt 200 (.GithubProfile profile), w1)

/-- GetRepository handles GET /github/:repo. -/
def GitHubHandler.GetRepository {σ : Type} (rt : Runtime) (h : GitHubHandler σ) : HandlerFunc σ :=
  fun c w =>
    let repoName := c.Param "repo"
    if repoName = "" then
      (JSON rt 400 (.ErrorResponse { Error := "Repository name is required" }), w)
    else
      match h.service.GetRepository repoName w with
      | (.error err, w1) =>
        (JSON rt 500 (.ErrorResponse { Error := "Failed to retrieve repository information" }),
          w1.logrus "error" "Failed to get repository" [("error", err.Error), ("repo", repoName)])
      | (.ok repo, w1) => (JSON rt 200 (.Repository repo), w1)

/-- CreateIssue handles POST /github/:repo/issues. -/
def GitHubHandler.CreateIssue {σ : Type} (rt : Runtime) (h : GitHubHandler σ) : HandlerFunc σ :=
  fun c w =>
    let repoName := c.Param "repo"
    if repoName = "" then
      (JSON rt 400 (.ErrorResponse { Error := "Repository name is required" }), w)
    else
      match ShouldBindJSON rt c with
      | .error _ =>
        (JSON rt 400 (.ErrorResponse { Error := "Invalid request: title and body are required" }), w)
      | .ok issueRequest =>
        match h.service.CreateIssue repoName issueRequest w with
        | (.error err, w1) =>
          (JSON rt 500 (.ErrorResponse { Error := "Failed to create issue" }),
            w1.logrus "error" "Failed to create issue" [("error", err.Error), ("repo", repoName)])
        | (.ok issue, w1) => (JSON rt 201 (.IssueResponse issue), w1)

/-! ## internal/api/handlers/github_handler_test.go: the mock service -/

/-- One call on the service interface, as `mock.Mock` records it. -/
inductive ServiceCall where
  | GetUserProfile
  | GetRepository (repoName : String)
  | CreateIssue (repoName : String) (issue : IssueRequest)
  deriving DecidableEq, Repr

/-- MockGitHubService is a mock implementation of the GitHub service interface: the answers set up
with `mockService.On(...).Return(...)`. -/
structure MockGitHubService where
  onGetUserProfile : Except GoError GithubProfile
  onGetRepository : String → Except GoError Repository
  onCreateIssue : String → IssueRequest → Except GoError IssueResponse

/-- The mock behind the interface.  Its state is the list of calls recorded so far, oldest
first; it makes no outbound call. -/
def MockGitHubService.service (m : MockGitHubService) : GitHubServiceInterface (List ServiceCall) where
  GetUserProfile := fun w =>
    (m.onGetUserProfile, { w with remote := w.remote ++ [.GetUserProfile] })
  GetRepository := fun repoName w =>
    (m.onGetRepository repoName, { w with remote := w.remote ++ [.GetRepository repoName] })
  CreateIssue := fun repoName issue w =>
    (m.onCreateIssue repoName issue, { w with remote := w.remote ++ [.CreateIssue repoName issue] })

/-! ## internal/api/middleware/middleware.go

A middleware is modelled by what it does around `c.Next()`: it maps the rest of the chain to a
handler. -/

/-- A middleware: given the rest of the chain, a handler. -/
abbrev Middleware (σ : Type) := HandlerFunc σ → HandlerFunc σ

/-- Logger is a middleware function that logs the incoming requests.  (The fields `latency` and
`client_ip` of the record are left out.)  The code after `c.Next()` does not run when the rest of
the chain panics. -/
def Logger {σ : Type} : Middleware σ :=
  fun next c w =>
    match next c w with
    | (.wrote r, w1) =>
      let fields := [("status_code", toString r.Status), ("method", c.Request.Method),
        ("path", c.Request.Path)]
      if r.Status ≥ 500 then (.wrote r, w1.logrus "error" "Server error" fields)
      else if r.Status ≥ 400 then (.wrote r, w1.logrus "warning" "Client error" fields)
      else (.wrote r, w1.logrus "info" "Request processed" fields)
    | (out, w1) => (out, w1)

/-- The method `c.AbortWithStatusJSON(code, obj)`, given what the handlers had written before.
When nothing was written it is `c.JSON(code, obj)`.  A status that is already written cannot be
changed: the document is then appended to the body written so far. -/
def AbortWithStatusJSON (rt : Runtime) (written : Option Response) (code : Nat) (obj : JSONValue) :
    Outcome :=
  match written with
  | none => JSON rt code obj
  | some r => .wrote { Status := r.Status, Body := r.Body ++ rt.Marshal obj }

/-- ErrorHandler is a middleware that handles panics and returns a 500 error. -/
def ErrorHandler {σ : Type} (rt : Runtime) : Middleware σ :=
  fun next c w =>
    match next c w with
    | (.panicked value written, w1) =>
      (AbortWithStatusJSON rt written 500 (.H [("error", "Internal server error")]),
        w1.logrus "error" "Panic recovered" [("error", value)])
    | (out, w1) => (out, w1)

/-- The middleware `cors.New(corsConfig)`: it either aborts the request with a status of its own or
lets the rest of the chain run. -/
def CORS {σ : Type} (rt : Runtime) (config : CORSConfig) : Middleware σ :=
  fun next c w =>
    match rt.cors config.AllowOrigins c.Request.Method c.Request.Header with
    | some code => (.wrote { Status := code, Body := "" }, w)
    | none => next c w

/-! ## gin: the router -/

/-- The segments of a path: the pieces between the slashes.  `/github/x` has the segments
empty, `github` and `x`. -/
def splitPath : List Char → List (List Char)
  | [] => [[]]
  | c :: cs =>
    if c = '/' then [] :: splitPath cs
    else
      match splitPath cs with
      | [] => [[c]]
      | seg :: segs => (c :: seg) :: segs

/-- Matching of a route path against a request path, segment by segment.  A segment `:name` of the
route binds the text of the path up to the next slash: this text may be empty when more of the
path follows (`/github//issues` binds `repo` to the empty string), but not when the path ends
there (`/github/` has no `repo`).  Any other segment matches itself. -/
def matchSegments : List (List Char) → List (List Char) → Option (List (String × String))
  | [], [] => some []
  | p :: ps, seg :: segs =>
    if p.head? = some ':' then
      if seg = [] ∧ segs = [] then none
      else
        match matchSegments ps segs with
        | some params => some ((String.mk p.tail, String.mk seg) :: params)
        | none => none
    else if p = seg then matchSegments ps segs
    else none
  | _, _ => none

/-- The path parameters when the route path `pattern` matches the request path `path`. -/
def matchRoute (pattern path : String) : Option (List (String × String)) :=
  matchSegments (splitPath pattern.toList) (splitPath path.toList)

/-- One registered route. -/
structure RouteInfo (σ : Type) where
  Method : String
  Path : String
  Handler : HandlerFunc σ

/-- The `*gin.Engine`, as far as `SetupRouter` configures it. -/
structure Engine (σ : Type) where
  /-- The setting of `gin.New()` is `true`. -/
  RedirectTrailingSlash : Bool
  /-- The middleware added with `router.Use`, outermost first. -/
  Handlers : List (Middleware σ)
  /-- The routes, in the order of registration. -/
  routes : List (RouteInfo σ)

/-- The route of the request, with the parameters bound.  (No two routes of this router match the
same request, so the order of the search does not matter.) -/
def getValue {σ : Type} : List (RouteInfo σ) → String → String →
    Option (HandlerFunc σ × List (String × String))
  | [], _, _ => none
  | r :: rs, method, path =>
    if r.Method = method then
      match matchRoute r.Path path with
      | some params => some (r.Handler, params)
      | none => getValue rs method path
    else getValue rs method path

/-- A handler behind the middleware of the engine. -/
def Engine.chain {σ : Type} (e : Engine σ) (handler : HandlerFunc σ) : HandlerFunc σ :=
  e.Handlers.foldr (fun m next => m next) handler

/-- The end of the chain when no route matches: gin's default answer, status 404. -/
def noRoute {σ : Type} : HandlerFunc σ :=
  fun _ w => (.wrote { Status := 404, Body := "404 page not found" }, w)

/-- The method `ServeHTTP` of the engine.  A matched route runs behind the middleware.  Otherwise
the engine redirects when the route tree recommends the path with the final slash changed, with
status 301 for GET and 307 for every other method (the `Location` header is not modelled), and
else serves 404 behind the same middleware.  (`HandleMethodNotAllowed` and `RedirectFixedPath`
are off in `gin.New()`.) -/
def Engine.ServeHTTP {σ : Type} (rt : Runtime) (e : Engine σ) (req : Request) (w : World σ) :
    Outcome × World σ :=
  match getValue e.routes req.Method req.Path with
  | some (handler, params) => e.chain handler { Request := req, Params := params } w
  | none =>
    if req.Method ≠ "CONNECT" ∧ req.Path ≠ "/" ∧ e.RedirectTrailingSlash = true ∧
        rt.tsr (e.routes.map fun r => (r.Method, r.Path)) req.Method req.Path = true then
      (.redirect (if req.Method = "GET" then 301 else 307), w)
    else
      e.chain noRoute { Request := req, Params := [] } w

/-! ## internal/api/routes/routes.go -/

/-- SetupRouter configures the API routes.  The argument `client` stands for the transport of the
`http.Client` that `NewGitHubService` creates. -/
def SetupRouter {σ : Type} (rt : Runtime) (config : Config)
    (client : HttpRequest → σ → Except GoError HttpResponse × σ) : Engine σ :=
  let githubService := NewGitHubService rt { config := config, client := client }
  let githubHandler := NewGitHubHandler githubService
  { RedirectTrailingSlash := true
    Handlers := [Logger, ErrorHandler rt, CORS rt config.CORS]
    routes := [
      { Method := "GET", Path := "/health",
        Handler := fun _ w => (JSON rt 200 (.H [("status", "ok")]), w) },
      { Method := "GET", Path := "/github", Handler := githubHandler.GetUserProfile rt },
      { Method := "GET", Path := "/github" ++ "/:repo", Handler := githubHandler.GetRepository rt },
      { Method := "POST", Path := "/github" ++ "/:repo/issues",
        Handler := githubHandler.CreateIssue rt } ] }

/-! ## A runtime and a transport for the examples

The theorems below hold for every `Runtime` and every transport.  The examples that instantiate
them need one of each.  `exampleRuntime` does what the Go libraries do on the inputs the examples
use: the documents are those of the tests of the repository. -/

/-- Whether every `%` in the text is followed by two hexadecimal digits. -/
def validEscapes : List Char → Bool
  | [] => true
  | c :: cs =>
    if c = '%' then
      match cs with
      | a :: b :: _ => a.isAlphanum && b.isAlphanum && a.toLower.toNat ≤ 'f'.toNat &&
          b.toLower.toNat ≤ 'f'.toNat && validEscapes cs
      | _ => false
    else validEscapes cs

/-- The checks of `net/url.Parse` that a URL `https://api.github.com/...` can fail: a control
character anywhere, or a malformed escape in the path (the text before the first `#`, up to its
first `?`) or in the fragment (the text after the first `#`). -/
def exampleUrlParse (url : String) : Except GoError Unit :=
  if url.toList.any (fun c => c.toNat < 32 || c.toNat = 127) then
    .error (.New "net/url: invalid control character in URL")
  else if validEscapes ((url.toList.takeWhile (fun c => c ≠ '#')).takeWhile (fun c => c ≠ '?')) &&
      validEscapes ((url.toList.dropWhile (fun c => c ≠ '#')).drop 1) then .ok ()
  else .error (.New "invalid URL escape")

/-- A JSON string literal for a text in which no character needs escaping. -/
def quote (text : String) : String :=
  "\"" ++ text ++ "\""

/-- The members of a `gin.H` map, comma separated. -/
def renderEntries : List (String × String) → String
  | [] => ""
  | [kv] => quote kv.1 ++ ":" ++ quote kv.2
  | kv :: rest => quote kv.1 ++ ":" ++ quote kv.2 ++ "," ++ renderEntries rest

/-- The JSON document of a repository. -/
def renderRepository (r : Repository) : String :=
  "\x7b\"name\":" ++ quote r.Name ++ ",\"full_name\":" ++ quote r.FullName ++ ",\"description\":" ++
    (match r.Description with
     | some d => quote d
     | none => "null") ++ "\x7d"

/-- The JSON documents of a list of repositories, comma separated. -/
def renderRepositories : List Repository → String
  | [] => ""
  | [r] => renderRepository r
  | r :: rest => renderRepository r ++ "," ++ renderRepositories rest

/-- The rendering `json.Marshal` gives when no text needs escaping and the keys of a map are
given in sorted order. -/
def exampleMarshal : JSONValue → String
  | .ErrorResponse v => "\x7b\"error\":" ++ quote v.Error ++ "\x7d"
  | .GithubProfile v =>
    "\x7b\"user\":\x7b\"login\":" ++ quote v.User.Login ++ ",\"name\":" ++ quote v.User.Name ++
      ",\"followers\":" ++ toString v.User.Followers ++ ",\"following\":" ++
      toString v.User.Following ++ "\x7d,\"repositories\":[" ++ renderRepositories v.Repositories ++
      "]\x7d"
  | .Repository v => renderRepository v
  | .IssueRequest v => "\x7b\"title\":" ++ quote v.Title ++ ",\"body\":" ++ quote v.Body ++ "\x7d"
  | .IssueResponse v =>
    "\x7b\"number\":" ++ toString v.Number ++ ",\"title\":" ++ quote v.Title ++ ",\"html_url\":" ++
      quote v.HTMLURL ++ "\x7d"
  | .H entries => "\x7b" ++ renderEntries entries ++ "\x7d"

/-- The error of `encoding/json` on a document it cannot decode into the target. -/
def decodeError : GoError :=
  .New "json: cannot unmarshal"

/-- The decoder on the user documents of the service tests: the document of "Success", and the
error document, whose unknown key is ignored and leaves every field at its zero value.  Any other
document is rejected here. -/
def exampleDecodeUser (body : String) : Except GoError UserResponse :=
  if body = "\x7b\"login\": \"test-user\", \"name\": \"Test User\", \"followers\": 10, \"following\": 20\x7d" then
    .ok { Login := "test-user", Name := "Test User", Followers := 10, Following := 20 }
  else if body = "\x7b\"message\": \"Not Found\"\x7d" then
    .ok { Login := "", Name := "", Followers := 0, Following := 0 }
  else .error decodeError

/-- The decoder on the repository documents of the service tests, in the same way. -/
def exampleDecodeRepository (body : String) : Except GoError Repository :=
  if body = "\x7b\"name\": \"test-repo\", \"full_name\": \"test-user/test-repo\", \"description\": \"Test repository\"\x7d" then
    .ok { Name := "test-repo", FullName := "test-user/test-repo", Description := some "Test repository" }
  else if body = "\x7b\"message\": \"Not Found\"\x7d" then
    .ok { Name := "", FullName := "", Description := none }
  else .error decodeError

/-- The decoder on the repository lists of the service tests, in the same way; an object is not
a list and is rejected. -/
def exampleDecodeRepositories (body : String) : Except GoError (List Repository) :=
  if body = "[\x7b\"name\": \"repo1\", \"full_name\": \"test-user/repo1\"\x7d, \x7b\"name\": \"repo2\", \"full_name\": \"test-user/repo2\"\x7d]" then
    .ok [{ Name := "repo1", FullName := "test-user/repo1", Description := none },
         { Name := "repo2", FullName := "test-user/repo2", Description := none }]
  else if body = "[]" then .ok []
  else .error decodeError

/-- The decoder on the issue documents of the service tests, in the same way. -/
def exampleDecodeIssueResponse (body : String) : Except GoError IssueResponse :=
  if body = "\x7b\"html_url\": \"https://github.com/test-user/test-repo/issues/1\", \"number\": 1, \"title\": \"Test Issue\"\x7d" then
    .ok { Number := 1, Title := "Test Issue",
          HTMLURL := "https://github.com/test-user/test-repo/issues/1" }
  else if body = "\x7b\"message\": \"Not Found\"\x7d" then
    .ok { Number := 0, Title := "", HTMLURL := "" }
  else .error decodeError

/-- The decoder on the request bodies of the handler tests, in the same way: a body without the
key `body` leaves that field empty. -/
def exampleDecodeIssueRequest (body : String) : Except GoError IssueRequest :=
  if body = "\x7b\"title\":\"Test Issue\",\"body\":\"This is a test issue\"\x7d" then
    .ok { Title := "Test Issue", Body := "This is a test issue" }
  else if body = "\x7b\"title\":\"\"\x7d" then .ok { Title := "", Body := "" }
  else .error decodeError

/-- A CORS middleware for the examples, after gin-contrib/cors: a request without an `Origin`
header is not a CORS request and passes; one from an origin that is not allowed is aborted with
403; a preflight from an allowed origin is answered 204.  (The comparison of the origin with the
host of the request is left out.) -/
def exampleCors (allowOrigins : List String) (method : String) (header : List (String × String)) :
    Option Nat :=
  match header.find? (fun kv => kv.1 = "Origin") with
  | none => none
  | some kv =>
    if kv.2 = "" then none
    else if allowOrigins.contains "*" || allowOrigins.contains kv.2 then
      if method = "OPTIONS" then some 204 else none
    else some 403

/-- The rule gin documents for `RedirectTrailingSlash`: the request has no route, but a route of
the same method exists for the path without its final slash, or with one added.  ("If /foo/ is
requested but a route only exists for /foo, the client is redirected to /foo with http status code
301 for GET requests and 307 for all other request methods.") -/
def exampleTsr (routes : List (String × String)) (method path : String) : Bool :=
  routes.any fun r =>
    r.1 = method &&
      ((path.toList.getLast? = some '/' && (matchRoute r.2 (String.mk path.toList.dropLast)).isSome) ||
        (matchRoute r.2 (path ++ "/")).isSome)

/-- The runtime of the examples. -/
def exampleRuntime : Runtime where
  urlParse := exampleUrlParse
  Marshal := exampleMarshal
  decodeUser := exampleDecodeUser
  decodeRepository := exampleDecodeRepository
  decodeRepositories := exampleDecodeRepositories
  decodeIssueResponse := exampleDecodeIssueResponse
  decodeIssueRequest := exampleDecodeIssueRequest
  cors := exampleCors
  tsr := exampleTsr

/-- The `mockTransport` of the service tests, for `TestGetUserProfile`: its state is the counter
`callCount`; every call is answered with the same status, the first with `userResponse` and the
later ones with `reposResponse`. -/
def mockTransport (statusCode : Int) (userResponse reposResponse : String) :
    HttpRequest → Nat → Except GoError HttpResponse × Nat :=
  fun _ callCount =>
    (.ok { StatusCode := statusCode,
           Body := if callCount + 1 = 1 then userResponse else reposResponse }, callCount + 1)

/-- The configuration of the tests. -/
def testConfig : Config where
  Server := { Port := "8080", GinMode := "test" }
  GitHub := { Token := "test-token", Username := "test-user" }
  CORS := { AllowOrigins := ["*"] }
  LogLevel := "info"

/-- A world in which nothing has happened yet. -/
def World.start {σ : Type} (remote : σ) : World σ :=
  { remote := remote, exchanges := [], log := [] }

/-! ## The requests the client sends -/

/-- The request of `getUser`, as the code builds it. -/
def GitHubService.userRequest {σ : Type} (s : GitHubService σ) : HttpRequest :=
  s.authorize { Method := "GET", URL := "https://api.github.com/users/" ++ s.config.GitHub.Username,
                Header := [], Body := none }

/-- The request of `getUserRepositories`, as the code builds it. -/
def GitHubService.reposRequest {σ : Type} (s : GitHubService σ) : HttpRequest :=
  s.authorize { Method := "GET",
                URL := "https://api.github.com/users/" ++ s.config.GitHub.Username ++
                  "/repos?type=owner&sort=updated&per_page=100",
                Header := [], Body := none }

/-- The request of `GetRepository`, as the code builds it. -/
def GitHubService.repositoryRequest {σ : Type} (s : GitHubService σ) (repoName : String) :
    HttpRequest :=
  s.authorize { Method := "GET",
                URL := "https://api.github.com/repos/" ++ s.config.GitHub.Username ++ "/" ++ repoName,
                Header := [], Body := none }

/-- The request of `CreateIssue`, as the code builds it. -/
def GitHubService.issueRequest {σ : Type} (rt : Runtime) (s : GitHubService σ) (repoName : String)
    (issue : IssueRequest) : HttpRequest :=
  (s.authorize { Method := "POST",
                 URL := "https://api.github.com/repos/" ++ s.config.GitHub.Username ++ "/" ++
                   repoName ++ "/issues",
                 Header := [], Body := some (rt.Marshal (.IssueRequest issue)) }).SetHeader
    "Content-Type" "application/json"

/-- A status code in the range 200 to 299. -/
def is2xx (code : Int) : Prop :=
  200 ≤ code ∧ code < 300

instance (code : Int) : Decidable (is2xx code) :=
  inferInstanceAs (Decidable (200 ≤ code ∧ code < 300))

/-- The mock of the handler tests that answers every call with an error. -/
def failingMock : MockGitHubService where
  onGetUserProfile := .error (.New "service error")
  onGetRepository := fun _ => .error (.New "not found")
  onCreateIssue := fun _ _ => .error (.New "not found")

/-- The mock of the handler tests that answers every call with the test data. -/
def successMock : MockGitHubService where
  onGetUserProfile := .ok
    { User := { Login := "test-user", Name := "Test User", Followers := 10, Following := 20 },
      Repositories := [{ Name := "repo1", FullName := "test-user/repo1", Description := none },
                       { Name := "repo2", FullName := "test-user/repo2", Description := none }] }
  onGetRepository := fun _ =>
    .ok { Name := "test-repo", FullName := "test-user/test-repo", Description := none }
  onCreateIssue := fun _ _ =>
    .ok { Number := 1, Title := "Test Issue",
          HTMLURL := "https://github.com/test-user/test-repo/issues/1" }

/-- The context of a request to `POST /github/:repo/issues`. -/
def issueContext (repoName body : String) : Context where
  Request := { Method := "POST", Path := "/github/" ++ repoName ++ "/issues",
               Header := [("Content-Type", "application/json")], Body := body }
  Params := [("repo", repoName)]

/-- The context of a request to `GET /github/:repo`. -/
def repositoryContext (repoName : String) : Context where
  Request := { Method := "GET", Path := "/github/" ++ repoName, Header := [], Body := "" }
  Params := [("repo", repoName)]

/-- The shape the four operations of the client share, used to reason about them together: the
outcome of parsing the URL, the request built, the one status that counts as success and the
decoder of the answer.  Each operation is proved equal to an instance of it from its own
definition (`getUser_eq` and the lemmas after it). -/
def GitHubService.roundTrip {σ α : Type} (s : GitHubService σ) (parsed : Except GoError Unit)
    (req : HttpRequest) (expected : Int) (decode : String → Except GoError α) (w : World σ) :
    Except GoError α × World σ :=
  match parsed with
  | .error err => (.error (.Wrap "failed to create request" err), w)
  | .ok _ =>
    match (s.client req w.remote).1 with
    | .error err => (.error (.Wrap "failed to send request" err), (s.Do req w).2)
    | .ok resp =>
      if resp.StatusCode ≠ expected then
        (.error (.Status resp.StatusCode),
          (s.Do req w).2.logrus "error" "GitHub API error" (apiErrorFields resp))
      else
        match decode resp.Body with
        | .error err => (.error (.Wrap "failed to decode response" err), (s.Do req w).2)
        | .ok v => (.ok v, (s.Do req w).2)

/-- The URL of `getUser`. -/
def GitHubService.userURL {σ : Type} (s : GitHubService σ) : String :=
  "https://api.github.com/users/" ++ s.config.GitHub.Username

/-- The URL of `getUserRepositories`. -/
def GitHubService.reposURL {σ : Type} (s : GitHubService σ) : String :=
  "https://api.github.com/users/" ++ s.config.GitHub.Username ++
    "/repos?type=owner&sort=updated&per_page=100"

/-- The URL of `GetRepository`. -/
def GitHubService.repositoryURL {σ : Type} (s : GitHubService σ) (repoName : String) : String :=
  "https://api.github.com/repos/" ++ s.config.GitHub.Username ++ "/" ++ repoName

/-- The URL of `CreateIssue`. -/
def GitHubService.issuesURL {σ : Type} (s : GitHubService σ) (repoName : String) : String :=
  "https://api.github.com/repos/" ++ s.config.GitHub.Username ++ "/" ++ repoName ++ "/issues"

/-- The `mockTransport` of the service tests, for `TestGetRepository` and `TestCreateIssue`: every
call is answered with the same status and the same body.  It has no state. -/
def constTransport (statusCode : Int) (response : String) :
    HttpRequest → Unit → Except GoError HttpResponse × Unit :=
  fun _ _ => (.ok { StatusCode := statusCode, Body := response }, ())

/-- The service of the tests behind `mockTransport`. -/
def profileTestService (statusCode : Int) (userResponse reposResponse : String) :
    GitHubService Nat where
  config := testConfig
  client := mockTransport statusCode userResponse reposResponse

/-- The service of the tests behind `constTransport`. -/
def testService (statusCode : Int) (response : String) : GitHubService Unit where
  config := testConfig
  client := constTransport statusCode response

/-- The user document of the test "Success" of `TestGetUserProfile`. -/
def userDocument : String :=
  "\x7b\"login\": \"test-user\", \"name\": \"Test User\", \"followers\": 10, \"following\": 20\x7d"

/-- The repositories document of the test "Success" of `TestGetUserProfile`. -/
def reposDocument : String :=
  "[\x7b\"name\": \"repo1\", \"full_name\": \"test-user/repo1\"\x7d, \x7b\"name\": \"repo2\", \"full_name\": \"test-user/repo2\"\x7d]"

/-- The repository document of the test "Success" of `TestGetRepository`. -/
def repositoryDocument : String :=
  "\x7b\"name\": \"test-repo\", \"full_name\": \"test-user/test-repo\", \"description\": \"Test repository\"\x7d"

/-- The issue document of the test "Success" of `TestCreateIssue`. -/
def issueDocument : String :=
  "\x7b\"html_url\": \"https://github.com/test-user/test-repo/issues/1\", \"number\": 1, \"title\": \"Test Issue\"\x7d"

/-- The error document of the tests "Not Found". -/
def notFoundDocument : String :=
  "\x7b\"message\": \"Not Found\"\x7d"

/-- The issue request of the tests. -/
def testIssue : IssueRequest where
  Title := "Test Issue"
  Body := "This is a test issue"

/-- The outbound calls made on the way from the world `w` to the later world `w1`. -/
def World.since {σ : Type} (w1 w : World σ) : List Exchange :=
  w1.exchanges.drop w.exchanges.length

/-- The handler of the router: the real service behind the interface. -/
def GitHubService.handler {σ : Type} (rt : Runtime) (s : GitHubService σ) : GitHubHandler σ :=
  NewGitHubHandler (NewGitHubService rt s)

/-- The request body of the test "Success" of the handler test `TestCreateIssue`. -/
def issueRequestDocument : String :=
  "\x7b\"title\":\"Test Issue\",\"body\":\"This is a test issue\"\x7d"

/-- The declared routes, as pairs of method and path. -/
def declaredRoutes : List (String × String) :=
  [("GET", "/health"), ("GET", "/github"), ("GET", "/github/:repo"),
   ("POST", "/github/:repo/issues")]

/-- Whether the request matches one of the declared routes. -/
def matchesDeclaredRoute (method path : String) : Bool :=
  declaredRoutes.any fun route => route.1 = method && (matchRoute route.2 path).isSome

/-- An inbound request without headers and without body. -/
def plainRequest (method path : String) : Request where
  Method := method
  Path := path
  Header := []
  Body := ""

/-- The method `req.Header.Get(key)`: the value of the first entry for `key`, or the empty
string. -/
def HttpRequest.GetHeader (req : HttpRequest) (key : String) : String :=
  match req.Header.find? (fun kv => kv.1 = key) with
  | some kv => kv.2
  | none => ""

/-- The pieces of a text between the occurrences of the separator. -/
def splitAtChar (sep : Char) : List Char → List (List Char)
  | [] => [[]]
  | c :: cs =>
    if c = sep then [] :: splitAtChar sep cs
    else
      match splitAtChar sep cs with
      | [] => [[c]]
      | piece :: pieces => (c :: piece) :: pieces

/-- The parameters of a query string `k1=v1&k2=v2&...`, in order: each piece between two `&` is
cut at its first `=`. -/
def queryPairs (query : String) : List (String × String) :=
  (splitAtChar '&' query.toList).map fun piece =>
    (String.mk (piece.takeWhile fun c => c ≠ '='),
      String.mk ((piece.dropWhile fun c => c ≠ '=').drop 1))

/-- A configuration that allows one origin only. -/
def restrictedConfig : Config where
  Server := { Port := "8080", GinMode := "release" }
  GitHub := { Token := "test-token", Username := "test-user" }
  CORS := { AllowOrigins := ["https://app.example.com"] }
  LogLevel := "info"

/-- The health request, sent by a page of another origin. -/
def foreignHealthRequest : Request where
  Method := "GET"
  Path := "/health"
  Header := [("Origin", "https://other.example.com")]
  Body := ""

/-! ## JSON documents of the records

The documents are handled as values, not as text: what `encoding/json` writes for a record and
what it reads back from a document.  The keys are the ones the tests of the repository use in
their documents. -/

/-- A JSON document, as a value.  The numbers of the documents of this service are integers; a
number written with a fraction or an exponent is kept as its text. -/
inductive Json where
  | null
  | bool (b : Bool)
  | num (n : Int)
  | real (text : String)
  | str (s : String)
  | arr (items : List Json)
  | obj (members : List (String × Json))

/-- The member of an object that the decoder stores for the key: the members are read in order,
so the last one with the key stays.  (The keys are compared as they are written; `encoding/json`
also takes a key that differs in letter case only, which the documents here do not use.) -/
def Json.member (members : List (String × Json)) (key : String) : Option Json :=
  match members.reverse.find? (fun kv => kv.1 = key) with
  | some kv => some kv.2
  | none => none

/-- The error of `encoding/json` for a value of the wrong kind. -/
def typeError : GoError :=
  .New "json: cannot unmarshal value into Go struct field"

/-- Decoding into a field of type `string`: an absent member or `null` leaves the zero value. -/
def Json.stringField : Option Json → Except GoError String
  | none => .ok ""
  | some .null => .ok ""
  | some (.str s) => .ok s
  | some _ => .error typeError

/-- Decoding into a field of type `int`: an absent member or `null` leaves the zero value. -/
def Json.intField : Option Json → Except GoError Int
  | none => .ok 0
  | some .null => .ok 0
  | some (.num n) => .ok n
  | some _ => .error typeError

/-- Decoding into an optional string field: an absent member or `null` leaves it unset. -/
def Json.optionalStringField : Option Json → Except GoError (Option String)
  | none => .ok none
  | some .null => .ok none
  | some (.str s) => .ok (some s)
  | some _ => .error typeError

/-- Modelled from the spec: the JSON document of a `models.UserResponse` (package
`internal/models`, which holds the field tags, is missing).  The keys are those of the user
documents in `github_service_test.go`. -/
def UserResponse.toJson (u : UserResponse) : Json :=
  .obj [("login", .str u.Login), ("name", .str u.Name), ("followers", .num u.Followers),
        ("following", .num u.Following)]

/-- Modelled from the spec: reading a `models.UserResponse` back from a document (package
`internal/models` is missing).  Members with other keys are ignored. -/
def UserResponse.fromJson : Json → Except GoError UserResponse
  | .null => .ok { Login := "", Name := "", Followers := 0, Following := 0 }
  | .obj members =>
    match Json.stringField (Json.member members "login") with
    | .error err => .error err
    | .ok login =>
      match Json.stringField (Json.member members "name") with
      | .error err => .error err
      | .ok name =>
        match Json.intField (Json.member members "followers") with
        | .error err => .error err
        | .ok followers =>
          match Json.intField (Json.member members "following") with
          | .error err => .error err
          | .ok following =>
            .ok { Login := login, Name := name, Followers := followers, Following := following }
  | _ => .error typeError

/-- Modelled from the spec: the JSON document of a `models.Repository` (package
`internal/models` is missing).  The keys are those of the repository documents in
`github_service_test.go`; a description that is not set is written as `null`. -/
def Repository.toJson (r : Repository) : Json :=
  .obj [("name", .str r.Name), ("full_name", .str r.FullName),
        ("description", match r.Description with
                        | some d => .str d
                        | none => .null)]

/-- Modelled from the spec: reading a `models.Repository` back from a document (package
`internal/models` is missing). -/
def Repository.fromJson : Json → Except GoError Repository
  | .null => .ok { Name := "", FullName := "", Description := none }
  | .obj members =>
    match Json.stringField (Json.member members "name") with
    | .error err => .error err
    | .ok name =>
      match Json.stringField (Json.member members "full_name") with
      | .error err => .error err
      | .ok fullName =>
        match Json.optionalStringField (Json.member members "description") with
        | .error err => .error err
        | .ok description =>
          .ok { Name := name, FullName := fullName, Description := description }
  | _ => .error typeError

/-- Reading the items of an array as repositories, in order; the first item that fails makes the
whole fail. -/
def repositoriesFromItems : List Json → Except GoError (List Repository)
  | [] => .ok []
  | item :: items =>
    match Repository.fromJson item with
    | .error err => .error err
    | .ok r =>
      match repositoriesFromItems items with
      | .error err => .error err
      | .ok rs => .ok (r :: rs)

/-- Decoding into a field of type `[]models.Repository`: an absent member or `null` leaves the
list empty. -/
def Json.repositoriesField : Option Json → Except GoError (List Repository)
  | none => .ok []
  | some .null => .ok []
  | some (.arr items) => repositoriesFromItems items
  | some _ => .error typeError

/-- Decoding into a field of type `models.UserResponse`: an absent member leaves the zero
value. -/
def Json.userField : Option Json → Except GoError UserResponse
  | none => .ok { Login := "", Name := "", Followers := 0, Following := 0 }
  | some j => UserResponse.fromJson j

/-- Modelled from the spec: the JSON document of a `models.GithubProfile` (package
`internal/models` is missing): "ProfileBundle: user: UserProfile, repositories: ordered sequence
of Repository".  The repositories are written in the order of the list. -/
def GithubProfile.toJson (p : GithubProfile) : Json :=
  .obj [("user", p.User.toJson), ("repositories", .arr (p.Repositories.map Repository.toJson))]

/-- Modelled from the spec: reading a `models.GithubProfile` back from a document (package
`internal/models` is missing), as `json.Unmarshal(resp.Body.Bytes(), &response)` does in the
handler test. -/
def GithubProfile.fromJson : Json → Except GoError GithubProfile
  | .null =>
    .ok { User := { Login := "", Name := "", Followers := 0, Following := 0 }, Repositories := [] }
  | .obj members =>
    match Json.userField (Json.member members "user") with
    | .error err => .error err
    | .ok user =>
      match Json.repositoriesField (Json.member members "repositories") with
      | .error err => .error err
      | .ok repos => .ok { User := user, Repositories := repos }
  | _ => .error typeError

/-- Modelled from the spec: the JSON documents of the values the handlers pass to `c.JSON`
(package `internal/models` is missing); a `gin.H` map is an object of strings. -/
def JSONValue.toJson : JSONValue → Json
  | .ErrorResponse v => .obj [("error", .str v.Error)]
  | .GithubProfile v => v.toJson
  | .Repository v => v.toJson
  | .IssueRequest v => .obj [("title", .str v.Title), ("body", .str v.Body)]
  | .IssueResponse v =>
    .obj [("number", .num v.Number), ("title", .str v.Title), ("html_url", .str v.HTMLURL)]
  | .H entries => .obj (entries.map fun kv => (kv.1, .str kv.2))

/-- The profile of the handler test `TestGetUserProfile`. -/
def mockProfile : GithubProfile where
  User := { Login := "test-user", Name := "Test User", Followers := 10, Following := 20 }
  Repositories := [{ Name := "repo1", FullName := "test-user/repo1", Description := none },
                   { Name := "repo2", FullName := "test-user/repo2", Description := none }]

/-- A handler that panics before it writes anything. -/
def faultyHandler : HandlerFunc Unit :=
  fun _ w => (.panicked "runtime error: invalid memory address or nil pointer dereference" none, w)

/-- A handler that writes a response with status 200 and then panics. -/
def lateFaultyHandler : HandlerFunc Unit :=
  fun _ w =>
    (.panicked "runtime error: index out of range"
      (some { Status := 200, Body := "\x7b\"status\":\"ok\"\x7d" }), w)

/-- A list of 101 repositories, `repo0` to `repo100`. -/
def manyRepositories : List Repository :=
  (List.range 101).map fun i =>
    { Name := "repo" ++ toString i, FullName := "test-user/repo" ++ toString i,
      Description := none }

/-- The JSON text of the list of 101 repositories. -/
def manyRepositoriesDocument : String :=
  "[" ++ renderRepositories manyRepositories ++ "]"

/-- The runtime of the examples, with a decoder that also reads the document of the 101
repositories. -/
def bulkRuntime : Runtime :=
  { exampleRuntime with
    decodeRepositories := fun body =>
      if body = manyRepositoriesDocument then .ok manyRepositories
      else exampleDecodeRepositories body }

/-! ## JSON text

The text syntax of JSON (RFC 8259) and the way `json.NewDecoder(r).Decode(&v)` reads a body: it
reads the first JSON value of the text and stops there. -/

/-- The four whitespace characters of JSON. -/
def isJsonSpace (c : Char) : Bool :=
  c = ' ' || c = '\t' || c = '\n' || c = '\r'

/-- The text after its leading whitespace. -/
def skipSpace : List Char → List Char
  | [] => []
  | c :: cs => if isJsonSpace c then skipSpace cs else c :: cs

/-- The value of a hexadecimal digit. -/
def hexValue (c : Char) : Option Nat :=
  if 48 ≤ c.toNat ∧ c.toNat ≤ 57 then some (c.toNat - 48)
  else if 97 ≤ c.toNat ∧ c.toNat ≤ 102 then some (c.toNat - 87)
  else if 65 ≤ c.toNat ∧ c.toNat ≤ 70 then some (c.toNat - 55)
  else none

/-- The number written by four hexadecimal digits at the head of the text. -/
def hex4 : List Char → Option (Nat × List Char)
  | a :: b :: c :: d :: rest =>
    match hexValue a, hexValue b, hexValue c, hexValue d with
    | some x, some y, some z, some t => some (((x * 16 + y) * 16 + z) * 16 + t, rest)
    | _, _, _, _ => none
  | _ => none

/-- The character of an escape `\uXXXX` with the code `code`, and the text that follows it.  A
high surrogate followed by the escape of a low surrogate gives the character of the pair; any
other surrogate gives U+FFFD. -/
def unicodeEscape (code : Nat) (rest : List Char) : Char × List Char :=
  if 0xD800 ≤ code ∧ code ≤ 0xDBFF then
    match rest with
    | '\\' :: 'u' :: rest2 =>
      match hex4 rest2 with
      | some (low, rest3) =>
        if 0xDC00 ≤ low ∧ low ≤ 0xDFFF then
          (Char.ofNat (0x10000 + (code - 0xD800) * 0x400 + (low - 0xDC00)), rest3)
        else (Char.ofNat 0xFFFD, rest)
      | none => (Char.ofNat 0xFFFD, rest)
    | _ => (Char.ofNat 0xFFFD, rest)
  else if 0xDC00 ≤ code ∧ code ≤ 0xDFFF then (Char.ofNat 0xFFFD, rest)
  else (Char.ofNat code, rest)

/-- The rest of a string literal, after its opening quote: the text of the string and what
follows the closing quote.  `acc` holds the characters read so far, last first. -/
def parseStringBody : Nat → List Char → List Char → Option (String × List Char)
  | 0, _, _ => none
  | fuel + 1, cs, acc =>
    match cs with
    | [] => none
    | c :: rest =>
      if c = '"' then some (String.mk acc.reverse, rest)
      else if c = '\\' then
        match rest with
        | [] => none
        | e :: rest2 =>
          if e = '"' then parseStringBody fuel rest2 ('"' :: acc)
          else if e = '\\' then parseStringBody fuel rest2 ('\\' :: acc)
          else if e = '/' then parseStringBody fuel rest2 ('/' :: acc)
          else if e = 'b' then parseStringBody fuel rest2 (Char.ofNat 8 :: acc)
          else if e = 'f' then parseStringBody fuel rest2 (Char.ofNat 12 :: acc)
          else if e = 'n' then parseStringBody fuel rest2 ('\n' :: acc)
          else if e = 'r' then parseStringBody fuel rest2 ('\r' :: acc)
          else if e = 't' then parseStringBody fuel rest2 ('\t' :: acc)
          else if e = 'u' then
            match hex4 rest2 with
            | some (code, rest3) =>
              parseStringBody fuel (unicodeEscape code rest3).2 ((unicodeEscape code rest3).1 :: acc)
            | none => none
          else none
      else if c.toNat < 32 then none
      else parseStringBody fuel rest (c :: acc)

/-- The natural number written by decimal digits. -/
def decimalValue (digits : List Char) : Nat :=
  digits.foldl (fun n d => n * 10 + (d.toNat - 48)) 0

/-- The digits at the head of the integer part of a number: a single `0`, or digits that do not
start with `0`. -/
def integerDigits : List Char → List Char × List Char
  | [] => ([], [])
  | c :: rest =>
    if c = '0' then (['0'], rest)
    else ((c :: rest).takeWhile Char.isDigit, (c :: rest).dropWhile Char.isDigit)

/-- A number at the head of the text: an optional minus sign, the integer part, an optional
fraction and an optional exponent. -/
def parseNumber (cs : List Char) : Option (Json × List Char) :=
  let negative := cs.head? = some '-'
  let unsigned := if negative then cs.drop 1 else cs
  let whole := (integerDigits unsigned).1
  let afterWhole := (integerDigits unsigned).2
  if whole = [] then none
  else
    let fraction :=
      if afterWhole.head? = some '.' then (afterWhole.drop 1).takeWhile Char.isDigit else []
    let afterFraction :=
      if afterWhole.head? = some '.' then (afterWhole.drop 1).dropWhile Char.isDigit
      else afterWhole
    if afterWhole.head? = some '.' ∧ fraction = [] then none
    else
      let hasExponent := afterFraction.head? = some 'e' ∨ afterFraction.head? = some 'E'
      let afterE := afterFraction.drop 1
      let afterSign :=
        if afterE.head? = some '+' ∨ afterE.head? = some '-' then afterE.drop 1 else afterE
      let exponent := afterSign.takeWhile Char.isDigit
      if hasExponent then
        if exponent = [] then none
        else
          some (.real (String.mk (cs.take (cs.length - (afterSign.dropWhile Char.isDigit).length))),
            afterSign.dropWhile Char.isDigit)
      else if afterWhole.head? = some '.' then
        some (.real (String.mk (cs.take (cs.length - afterFraction.length))), afterFraction)
      else if negative then some (.num (-(decimalValue whole : Int)), afterWhole)
      else some (.num (decimalValue whole), afterWhole)

/-- What the parser is reading: one value, the elements of an array after its opening bracket, or
the members of an object after its opening brace. -/
inductive ParseGoal where
  | value
  | elements
  | members

/-- What the parser has read. -/
inductive Parsed where
  | value (j : Json)
  | elements (items : List Json)
  | members (members : List (String × Json))

/-- The JSON parser: it reads what `goal` asks for at the head of the text and returns it with the
text that follows.  `fuel` bounds the number of nested steps. -/
def parseJson : Nat → ParseGoal → List Char → Option (Parsed × List Char)
  | 0, _, _ => none
  | fuel + 1, .value, cs =>
    match skipSpace cs with
    | [] => none
    | c :: rest =>
      if c = '\x7b' then
        match skipSpace rest with
        | [] => none
        | d :: rest2 =>
          if d = '\x7d' then some (.value (.obj []), rest2)
          else
            match parseJson fuel .members (d :: rest2) with
            | some (.members ms, rest3) => some (.value (.obj ms), rest3)
            | _ => none
      else if c = '[' then
        match skipSpace rest with
        | [] => none
        | d :: rest2 =>
          if d = ']' then some (.value (.arr []), rest2)
          else
            match parseJson fuel .elements (d :: rest2) with
            | some (.elements items, rest3) => some (.value (.arr items), rest3)
            | _ => none
      else if c = '"' then
        match parseStringBody (rest.length + 1) rest [] with
        | some (text, rest2) => some (.value (.str text), rest2)
        | none => none
      else if (c :: rest).take 4 = ['t', 'r', 'u', 'e'] then
        some (.value (.bool true), (c :: rest).drop 4)
      else if (c :: rest).take 5 = ['f', 'a', 'l', 's', 'e'] then
        some (.value (.bool false), (c :: rest).drop 5)
      else if (c :: rest).take 4 = ['n', 'u', 'l', 'l'] then
        some (.value .null, (c :: rest).drop 4)
      else
        match parseNumber (c :: rest) with
        | some (j, rest2) => some (.value j, rest2)
        | none => none
  | fuel + 1, .elements, cs =>
    match parseJson fuel .value cs with
    | some (.value item, rest) =>
      match skipSpace rest with
      | [] => none
      | d :: rest2 =>
        if d = ',' then
          match parseJson fuel .elements rest2 with
          | some (.elements items, rest3) => some (.elements (item :: items), rest3)
          | _ => none
        else if d = ']' then some (.elements [item], rest2)
        else none
    | _ => none
  | fuel + 1, .members, cs =>
    match skipSpace cs with
    | [] => none
    | c :: rest =>
      if c = '"' then
        match parseStringBody (rest.length + 1) rest [] with
        | none => none
        | some (key, rest2) =>
          match skipSpace rest2 with
          | [] => none
          | d :: rest3 =>
            if d = ':' then
              match parseJson fuel .value rest3 with
              | some (.value item, rest4) =>
                match skipSpace rest4 with
                | [] => none
                | e :: rest5 =>
                  if e = ',' then
                    match parseJson fuel .members rest5 with
                    | some (.members ms, rest6) => some (.members ((key, item) :: ms), rest6)
                    | _ => none
                  else if e = '\x7d' then some (.members [(key, item)], rest5)
                  else none
              | _ => none
            else none
      else none

/-- The first JSON value of a text, after leading whitespace, with the text that follows it. -/
def Json.parse (text : String) : Option (Json × List Char) :=
  match parseJson (2 * text.length + 2) .value text.toList with
  | some (.value j, rest) => some (j, rest)
  | _ => none

/-- Whether a text is valid JSON: one value, with nothing but whitespace around it. -/
def validJSON (text : String) : Bool :=
  match Json.parse text with
  | some (_, rest) => rest.all isJsonSpace
  | none => false

/-- The error of `encoding/json` for a text it cannot read a value from. -/
def syntaxError : GoError :=
  .New "invalid character"

/-- The call `json.NewDecoder(body).Decode(&v)`: the decoder reads the first JSON value of the
body and stores it into `v`; what follows an object or an array is not looked at, and a string, a
number or a literal must be followed by whitespace or by the end of the body. -/
def decodeFirst {α : Type} (fromJson : Json → Except GoError α) (body : String) :
    Except GoError α :=
  match Json.parse body with
  | none => .error syntaxError
  | some (.obj members, _) => fromJson (.obj members)
  | some (.arr items, _) => fromJson (.arr items)
  | some (j, []) => fromJson j
  | some (j, c :: _) => if isJsonSpace c then fromJson j else .error syntaxError

/-- Modelled from the spec: reading a `models.IssueRequest` from a document (package
`internal/models` is missing).  The keys are those of the request `{"title":string,"body":string}`
of the interface table. -/
def IssueRequest.fromJson : Json → Except GoError IssueRequest
  | .null => .ok { Title := "", Body := "" }
  | .obj members =>
    match Json.stringField (Json.member members "title") with
    | .error err => .error err
    | .ok title =>
      match Json.stringField (Json.member members "body") with
      | .error err => .error err
      | .ok body => .ok { Title := title, Body := body }
  | _ => .error typeError

/-- Modelled from the spec: reading a `models.IssueResponse` from a document (package
`internal/models` is missing).  The keys are those of the issue documents in
`github_service_test.go`. -/
def IssueResponse.fromJson : Json → Except GoError IssueResponse
  | .null => .ok { Number := 0, Title := "", HTMLURL := "" }
  | .obj members =>
    match Json.intField (Json.member members "number") with
    | .error err => .error err
    | .ok number =>
      match Json.stringField (Json.member members "title") with
      | .error err => .error err
      | .ok title =>
        match Json.stringField (Json.member members "html_url") with
        | .error err => .error err
        | .ok url => .ok { Number := number, Title := title, HTMLURL := url }
  | _ => .error typeError

/-- The runtime of the examples with decoders that read the text: the first JSON value of the
body is parsed and stored into the record. -/
def decodingRuntime : Runtime :=
  { exampleRuntime with
    decodeUser := decodeFirst UserResponse.fromJson
    decodeRepository := decodeFirst Repository.fromJson
    decodeRepositories := decodeFirst fun j => Json.repositoriesField (some j)
    decodeIssueResponse := decodeFirst IssueResponse.fromJson
    decodeIssueRequest := decodeFirst IssueRequest.fromJson }

/-- The request body of the handler test "Success", followed by text that is not JSON. -/
def trailingGarbageDocument : String :=
  "\x7b\"title\":\"Test Issue\",\"body\":\"This is a test issue\"\x7d trailing garbage"

theorem getUser_eq {σ : Type} (rt : Runtime) (s : GitHubService σ) (w : World σ) :
    s.getUser rt w = s.roundTrip (rt.urlParse s.userURL) s.userRequest 200 rt.decodeUser w := by
  unfold GitHubService.getUser GitHubService.roundTrip NewRequest GitHubService.userURL
  cases hurl : rt.urlParse ("https://api.github.com/users/" ++ s.config.GitHub.Username) with
  | error e => simp [hurl]
  | ok u =>
    simp only [GitHubService.userRequest, hurl]
    cases hres : (s.client (s.authorize
        { Method := "GET", URL := "https://api.github.com/users/" ++ s.config.GitHub.Username,
          Header := [], Body := none }) w.remote).1 with
    | error e => simp [GitHubService.Do, hres]
    | ok resp =>
      cases hd : rt.decodeUser resp.Body <;> simp [GitHubService.Do, hres, hd]

theorem getUserRepositories_eq {σ : Type} (rt : Runtime) (s : GitHubService σ) (w : World σ) :
    s.getUserRepositories rt w =
      s.roundTrip (rt.urlParse s.reposURL) s.reposRequest 200 rt.decodeRepositories w := by
  unfold GitHubService.getUserRepositories GitHubService.roundTrip NewRequest GitHubService.reposURL
  cases hurl : rt.urlParse ("https://api.github.com/users/" ++ s.config.GitHub.Username ++
      "/repos?type=owner&sort=updated&per_page=100") with
  | error e => simp [hurl]
  | ok u =>
    simp only [GitHubService.reposRequest, hurl]
    cases hres : (s.client (s.authorize
        { Method := "GET", URL := "https://api.github.com/users/" ++ s.config.GitHub.Username ++
            "/repos?type=owner&sort=updated&per_page=100",
          Header := [], Body := none }) w.remote).1 with
    | error e => simp [GitHubService.Do, hres]
    | ok resp =>
      cases hd : rt.decodeRepositories resp.Body <;> simp [GitHubService.Do, hres, hd]

theorem GetRepository_eq {σ : Type} (rt : Runtime) (s : GitHubService σ) (repoName : String)
    (w : World σ) :
    s.GetRepository rt repoName w =
      s.roundTrip (rt.urlParse (s.repositoryURL repoName)) (s.repositoryRequest repoName) 200
        rt.decodeRepository w := by
  unfold GitHubService.GetRepository GitHubService.roundTrip NewRequest GitHubService.repositoryURL
  cases hurl : rt.urlParse ("https://api.github.com/repos/" ++ s.config.GitHub.Username ++ "/" ++
      repoName) with
  | error e => simp [hurl]
  | ok u =>
    simp only [GitHubService.repositoryRequest, hurl]
    cases hres : (s.client (s.authorize
        { Method := "GET", URL := "https://api.github.com/repos/" ++ s.config.GitHub.Username ++
            "/" ++ repoName,
          Header := [], Body := none }) w.remote).1 with
    | error e => simp [GitHubService.Do, hres]
    | ok resp =>
      cases hd : rt.decodeRepository resp.Body <;> simp [GitHubService.Do, hres, hd]

theorem CreateIssue_eq {σ : Type} (rt : Runtime) (s : GitHubService σ) (repoName : String)
    (issue : IssueRequest) (w : World σ) :
    s.CreateIssue rt repoName issue w =
      s.roundTrip (rt.urlParse (s.issuesURL repoName)) (s.issueRequest rt repoName issue) 201
        rt.decodeIssueResponse w := by
  unfold GitHubService.CreateIssue GitHubService.roundTrip NewRequest GitHubService.issuesURL
  cases hurl : rt.urlParse ("https://api.github.com/repos/" ++ s.config.GitHub.Username ++ "/" ++
      repoName ++ "/issues") with
  | error e => simp [hurl]
  | ok u =>
    simp only [GitHubService.issueRequest, hurl]
    cases hres : (s.client ((s.authorize
        { Method := "POST", URL := "https://api.github.com/repos/" ++ s.config.GitHub.Username ++
            "/" ++ repoName ++ "/issues",
          Header := [], Body := some (rt.Marshal (.IssueRequest issue)) }).SetHeader
        "Content-Type" "application/json") w.remote).1 with
    | error e => simp [GitHubService.Do, hres]
    | ok resp =>
      cases hd : rt.decodeIssueResponse resp.Body <;> simp [GitHubService.Do, hres, hd]

section RoundTrip

variable {σ α : Type} (s : GitHubService σ) (req : HttpRequest) (expected : Int)
  (decode : String → Except GoError α) (w : World σ)

theorem roundTrip_parse_error (err : GoError) :
    s.roundTrip (.error err) req expected decode w =
      (.error (.Wrap "failed to create request" err), w) := rfl

theorem roundTrip_exchanges (u : Unit) :
    (s.roundTrip (.ok u) req expected decode w).2.exchanges =
      w.exchanges ++ [⟨req, (s.client req w.remote).1⟩] := by
  unfold GitHubService.roundTrip
  cases hres : (s.client req w.remote).1 with
  | error e => simp [GitHubService.Do, hres]
  | ok resp =>
    by_cases hst : resp.StatusCode = expected
    · cases hd : decode resp.Body <;> simp [GitHubService.Do, hres, hst, hd]
    · simp [GitHubService.Do, hres, hst, World.logrus]

theorem roundTrip_transport_error (u : Unit) (err : GoError)
    (hres : (s.client req w.remote).1 = .error err) :
    (s.roundTrip (.ok u) req expected decode w).1 = .error (.Wrap "failed to send request" err) := by
  simp [GitHubService.roundTrip, hres]

theorem roundTrip_status (u : Unit) (resp : HttpResponse)
    (hres : (s.client req w.remote).1 = .ok resp) (hst : resp.StatusCode ≠ expected) :
    (s.roundTrip (.ok u) req expected decode w).1 = .error (.Status resp.StatusCode) := by
  simp [GitHubService.roundTrip, hres, hst]

theorem roundTrip_decode (u : Unit) (resp : HttpResponse)
    (hres : (s.client req w.remote).1 = .ok resp) (hst : resp.StatusCode = expected) :
    (s.roundTrip (.ok u) req expected decode w).1 =
      match decode resp.Body with
      | .error err => .error (.Wrap "failed to decode response" err)
      | .ok v => .ok v := by
  cases hd : decode resp.Body <;> simp [GitHubService.roundTrip, hres, hst, hd]

theorem roundTrip_decoded (u : Unit) (resp : HttpResponse) (v : α)
    (hres : (s.client req w.remote).1 = .ok resp) (hst : resp.StatusCode = expected)
    (hd : decode resp.Body = .ok v) :
    (s.roundTrip (.ok u) req expected decode w).1 = .ok v := by
  simp [GitHubService.roundTrip, hres, hst, hd]

theorem roundTrip_ok_inv (parsed : Except GoError Unit) (v : α)
    (h : (s.roundTrip parsed req expected decode w).1 = .ok v) :
    (∃ u, parsed = .ok u) ∧
      ∃ resp, (s.client req w.remote).1 = .ok resp ∧ resp.StatusCode = expected ∧
        decode resp.Body = .ok v := by
  cases parsed with
  | error e => simp [GitHubService.roundTrip] at h
  | ok u =>
    refine ⟨⟨u, rfl⟩, ?_⟩
    cases hres : (s.client req w.remote).1 with
    | error e => simp [GitHubService.roundTrip, hres] at h
    | ok resp =>
      by_cases hst : resp.StatusCode = expected
      · cases hd : decode resp.Body with
        | error e => simp [GitHubService.roundTrip, hres, hst, hd] at h
        | ok v2 =>
          simp [GitHubService.roundTrip, hres, hst, hd] at h
          exact ⟨resp, rfl, hst, by rw [hd, h]⟩
      · simp [GitHubService.roundTrip, hres, hst] at h

end RoundTrip

theorem roundTrip_ok_exchanges {σ α : Type} (s : GitHubService σ) (req : HttpRequest)
    (expected : Int) (decode : String → Except GoError α) (w : World σ)
    (parsed : Except GoError Unit) (v : α)
    (h : (s.roundTrip parsed req expected decode w).1 = .ok v) :
    (s.roundTrip parsed req expected decode w).2.exchanges =
      w.exchanges ++ [⟨req, (s.client req w.remote).1⟩] := by
  obtain ⟨⟨u, rfl⟩, _⟩ := roundTrip_ok_inv s req expected decode w parsed v h
  exact roundTrip_exchanges s req expected decode w u

theorem eq_pair_of_fst {α β : Type} (p : α × β) (x : α) (h : p.1 = x) : p = (x, p.2) := by
  cases p
  simp only at h
  rw [h]

theorem sent_of_exchanges {σ : Type} (w w1 : World σ) (ex : Exchange)
    (h : w1.exchanges = w.exchanges ++ [ex]) : w1.sent = w.sent ++ [ex.req] := by
  simp [World.sent, h]

/-! ## The answers of the remote seen during an operation -/

theorem roundTrip_since {σ α : Type} (s : GitHubService σ) (req : HttpRequest) (expected : Int)
    (decode : String → Except GoError α) (w : World σ) (parsed : Except GoError Unit) :
    (s.roundTrip parsed req expected decode w).2.since w =
      match parsed with
      | .ok _ => [⟨req, (s.client req w.remote).1⟩]
      | .error _ => [] := by
  cases parsed with
  | error e => simp [World.since, roundTrip_parse_error]
  | ok u => simp [World.since, roundTrip_exchanges]

theorem roundTrip_bad_answer {σ α : Type} (s : GitHubService σ) (req : HttpRequest)
    (expected : Int) (decode : String → Except GoError α) (w : World σ)
    (parsed : Except GoError Unit) (ex : Exchange)
    (hex : ex ∈ (s.roundTrip parsed req expected decode w).2.since w) (resp : HttpResponse)
    (hres : ex.res = .ok resp) (hst : resp.StatusCode ≠ expected) :
    (s.roundTrip parsed req expected decode w).1 = .error (.Status resp.StatusCode) := by
  rw [roundTrip_since] at hex
  cases parsed with
  | error e => simp at hex
  | ok u =>
    simp only [List.mem_singleton] at hex
    subst hex
    exact roundTrip_status s req expected decode w u resp hres hst

theorem GetUserProfile_bad_answer {σ : Type} (rt : Runtime) (s : GitHubService σ) (w : World σ)
    (ex : Exchange) (hex : ex ∈ (s.GetUserProfile rt w).2.since w) (resp : HttpResponse)
    (hres : ex.res = .ok resp) (hst : resp.StatusCode ≠ 200) :
    (s.GetUserProfile rt w).1 = .error (.Status resp.StatusCode) := by
  unfold GitHubService.GetUserProfile at hex ⊢
  cases h1 : s.getUser rt w with
  | mk r1 w1 =>
    have b1 := roundTrip_bad_answer s s.userRequest 200 rt.decodeUser w (rt.urlParse s.userURL) ex
    rw [← getUser_eq, h1] at b1
    cases r1 with
    | error e =>
      simp only [h1] at hex ⊢
      have := b1 hex resp hres hst
      simp only [Except.error.injEq] at this
      rw [this]
    | ok user =>
      have e1 := roundTrip_ok_exchanges s s.userRequest 200 rt.decodeUser w
        (rt.urlParse s.userURL) user (by rw [← getUser_eq, h1])
      rw [← getUser_eq, h1] at e1
      simp only at e1
      by_cases hfirst : ex = ⟨s.userRequest, (s.client s.userRequest w.remote).1⟩
      · exfalso
        have := b1 (by simp [World.since, e1, hfirst]) resp hres hst
        cases this
      · cases h2 : s.getUserRepositories rt w1 with
        | mk r2 w2 =>
          have b2 := roundTrip_bad_answer s s.reposRequest 200 rt.decodeRepositories w1
            (rt.urlParse s.reposURL) ex
          have s2 := roundTrip_since s s.reposRequest 200 rt.decodeRepositories w1
            (rt.urlParse s.reposURL)
          rw [← getUserRepositories_eq, h2] at b2 s2
          simp only at b2 s2
          have hex2 : ex ∈ w2.since w1 := by
            have hw2 : w2.exchanges = w1.exchanges ++ w2.since w1 := by
              rw [s2]
              cases hp : rt.urlParse s.reposURL with
              | error e =>
                have := getUserRepositories_eq rt s w1
                rw [h2, hp, roundTrip_parse_error] at this
                simp [(Prod.mk.inj this).2]
              | ok u =>
                have := roundTrip_exchanges s s.reposRequest 200 rt.decodeRepositories w1 u
                rw [← hp, ← getUserRepositories_eq, h2] at this
                simpa using this
            have hmem : ex ∈ w2.since w := by
              cases r2 <;> simpa [h1, h2] using hex
            rw [World.since, hw2, e1] at hmem
            simp only [List.append_assoc, List.drop_left, List.singleton_append,
              List.mem_cons] at hmem
            rcases hmem with h | h
            · exact absurd h hfirst
            · exact h
          have := b2 hex2 resp hres hst
          cases r2 with
          | error e =>
            simp only [h1, h2]
            simp only [Except.error.injEq] at this
            rw [this]
          | ok repos => cases this

/-! ## The route table -/

theorem getValue_eq_none {σ : Type} (routes : List (RouteInfo σ)) (method path : String)
    (h : (routes.map fun r => (r.Method, r.Path)).any
      (fun route => route.1 = method && (matchRoute route.2 path).isSome) = false) :
    getValue routes method path = none := by
  induction routes with
  | nil => rfl
  | cons r rs ih =>
    simp only [List.map_cons, List.any_cons, Bool.or_eq_false_iff, Bool.and_eq_false_iff,
      decide_eq_false_iff_not] at h
    obtain ⟨hr, hrs⟩ := h
    unfold getValue
    by_cases hm : r.Method = method
    · rcases hr with hr | hr
      · exact absurd hm hr
      · cases hmatch : matchRoute r.Path path with
        | none => simp [hm, ih hrs]
        | some params => simp [hmatch] at hr
    · simp [hm, ih hrs]

theorem matchRoute_empty_parameter :
    matchRoute "/github/:repo/issues" "/github//issues" = some [("repo", "")] ∧
    matchRoute "/github/:repo" "/github/" = none := by
  decide

theorem SetupRouter_routes {σ : Type} (rt : Runtime) (config : Config)
    (client : HttpRequest → σ → Except GoError HttpResponse × σ) :
    ((SetupRouter rt config client).routes.map fun r => (r.Method, r.Path)) = declaredRoutes := by
  simp [SetupRouter, declaredRoutes]

/-! ## The requests sent -/

theorem roundTrip_sends_req {σ α : Type} (s : GitHubService σ) (req : HttpRequest)
    (expected : Int) (decode : String → Except GoError α) (w : World σ)
    (parsed : Except GoError Unit) :
    ∃ l, (s.roundTrip parsed req expected decode w).2.exchanges = w.exchanges ++ l ∧
      ∀ ex ∈ l, ex.req = req := by
  cases parsed with
  | error e => exact ⟨[], by simp [roundTrip_parse_error], by simp⟩
  | ok u => exact ⟨[⟨req, (s.client req w.remote).1⟩], roundTrip_exchanges s req expected decode w u,
      by simp⟩

theorem since_of_exchanges {σ : Type} (w w1 : World σ) (l : List Exchange)
    (h : w1.exchanges = w.exchanges ++ l) : w1.since w = l := by
  simp [World.since, h]

theorem GetUserProfile_sends {σ : Type} (rt : Runtime) (s : GitHubService σ) (w : World σ) :
    ∃ l, (s.GetUserProfile rt w).2.exchanges = w.exchanges ++ l ∧
      ∀ ex ∈ l, ex.req = s.userRequest ∨ ex.req = s.reposRequest := by
  obtain ⟨l1, e1, r1⟩ := roundTrip_sends_req s s.userRequest 200 rt.decodeUser w
    (rt.urlParse s.userURL)
  rw [← getUser_eq] at e1
  unfold GitHubService.GetUserProfile
  cases h1 : s.getUser rt w with
  | mk res1 w1 =>
    rw [h1] at e1
    simp only at e1
    cases res1 with
    | error e => exact ⟨l1, e1, fun ex hex => Or.inl (r1 ex hex)⟩
    | ok user =>
      obtain ⟨l2, e2, r2⟩ := roundTrip_sends_req s s.reposRequest 200 rt.decodeRepositories w1
        (rt.urlParse s.reposURL)
      rw [← getUserRepositories_eq] at e2
      cases h2 : s.getUserRepositories rt w1 with
      | mk res2 w2 =>
        rw [h2] at e2
        simp only at e2
        refine ⟨l1 ++ l2, ?_, fun ex hex => ?_⟩
        · cases res2 <;> simp [h2, e2, e1]
        · rcases List.mem_append.mp hex with h | h
          · exact Or.inl (r1 ex h)
          · exact Or.inr (r2 ex h)

theorem userRequest_headers {σ : Type} (s : GitHubService σ) :
    s.userRequest.GetHeader "Authorization" = "token " ++ s.config.GitHub.Token ∧
    s.userRequest.GetHeader "Accept" = "application/vnd.github.v3+json" := by
  constructor <;>
    simp [GitHubService.userRequest, GitHubService.authorize, HttpRequest.SetHeader,
      HttpRequest.GetHeader, List.find?]

theorem reposRequest_headers {σ : Type} (s : GitHubService σ) :
    s.reposRequest.GetHeader "Authorization" = "token " ++ s.config.GitHub.Token ∧
    s.reposRequest.GetHeader "Accept" = "application/vnd.github.v3+json" := by
  constructor <;>
    simp [GitHubService.reposRequest, GitHubService.authorize, HttpRequest.SetHeader,
      HttpRequest.GetHeader, List.find?]

theorem repositoryRequest_headers {σ : Type} (s : GitHubService σ) (repoName : String) :
    (s.repositoryRequest repoName).GetHeader "Authorization" = "token " ++ s.config.GitHub.Token ∧
    (s.repositoryRequest repoName).GetHeader "Accept" = "application/vnd.github.v3+json" := by
  constructor <;>
    simp [GitHubService.repositoryRequest, GitHubService.authorize, HttpRequest.SetHeader,
      HttpRequest.GetHeader, List.find?]

theorem issueRequest_headers {σ : Type} (rt : Runtime) (s : GitHubService σ) (repoName : String)
    (issue : IssueRequest) :
    (s.issueRequest rt repoName issue).GetHeader "Authorization" =
      "token " ++ s.config.GitHub.Token ∧
    (s.issueRequest rt repoName issue).GetHeader "Accept" = "application/vnd.github.v3+json" := by
  constructor <;>
    simp [GitHubService.issueRequest, GitHubService.authorize, HttpRequest.SetHeader,
      HttpRequest.GetHeader, List.find?]

/-! ## JSON documents: reading back what was written -/

theorem decodeFirst_of_no_value {α : Type} (fromJson : Json → Except GoError α) (body : String)
    (h : Json.parse body = none) : decodeFirst fromJson body = .error syntaxError := by
  simp [decodeFirst, h]

theorem decodeFirst_ok_inv {α : Type} (fromJson : Json → Except GoError α) (body : String) (v : α)
    (h : decodeFirst fromJson body = .ok v) :
    ∃ j rest, Json.parse body = some (j, rest) ∧ fromJson j = .ok v := by
  unfold decodeFirst at h
  split at h
  · cases h
  · exact ⟨_, _, by assumption, h⟩
  · exact ⟨_, _, by assumption, h⟩
  · exact ⟨_, _, by assumption, h⟩
  · split at h
    · exact ⟨_, _, by assumption, h⟩
    · cases h

theorem UserResponse_fromJson_toJson (u : UserResponse) :
    UserResponse.fromJson u.toJson = .ok u := by
  simp [UserResponse.toJson, UserResponse.fromJson, Json.member, Json.stringField, Json.intField,
    List.find?]

theorem Repository_fromJson_toJson (r : Repository) :
    Repository.fromJson r.toJson = .ok r := by
  cases r with
  | mk name fullName description =>
    cases description <;>
      simp [Repository.toJson, Repository.fromJson, Json.member, Json.stringField,
        Json.optionalStringField, List.find?]

theorem repositoriesFromItems_map_toJson (rs : List Repository) :
    repositoriesFromItems (rs.map Repository.toJson) = .ok rs := by
  induction rs with
  | nil => rfl
  | cons r rs ih => simp [repositoriesFromItems, Repository_fromJson_toJson, ih]

/-! ## The claims -/

/-- C1: a request to the GetRepository handler or to the CreateIssue handler whose `repo`
parameter is the empty string is answered with status 400 and an ErrorResponse, and the world is
returned as it was: whatever implements the service interface was not called (the recording mock
has recorded no call), and no outbound call was made. -/
theorem C1_empty_repo_is_400_without_client_call {σ : Type} (rt : Runtime) (h : GitHubHandler σ)
    (c : Context) (w : World σ) (hrepo : c.Param "repo" = "") :
    (h.GetRepository rt c w =
        (.wrote { Status := 400,
                  Body := rt.Marshal (.ErrorResponse { Error := "Repository name is required" }) }, w) ∧
      h.CreateIssue rt c w =
        (.wrote { Status := 400,
                  Body := rt.Marshal (.ErrorResponse { Error := "Repository name is required" }) }, w)) ∧
    (∀ (m : MockGitHubService) (wm : World (List ServiceCall)),
      ((NewGitHubHandler m.service).GetRepository rt c wm).2.remote = wm.remote ∧
      ((NewGitHubHandler m.service).CreateIssue rt c wm).2.remote = wm.remote) := by
  refine ⟨⟨?_, ?_⟩, fun m wm => ⟨?_, ?_⟩⟩ <;>
    simp [GitHubHandler.GetRepository, GitHubHandler.CreateIssue, hrepo, JSON]

/-- C1, an instance: the request `GET /github/` of the handler test, with an empty `repo`. -/
theorem C1_witness :
    (NewGitHubHandler failingMock.service).GetRepository exampleRuntime
        { Request := { Method := "GET", Path := "/github/", Header := [], Body := "" },
          Params := [("repo", "")] } (World.start []) =
      (.wrote { Status := 400, Body := "\x7b\"error\":\"Repository name is required\"\x7d" },
        World.start []) :=
  (C1_empty_repo_is_400_without_client_call exampleRuntime (NewGitHubHandler failingMock.service)
    { Request := { Method := "GET", Path := "/github/", Header := [], Body := "" },
      Params := [("repo", "")] } (World.start []) (by decide)).1.1

/-- C2, the claim fails: the body of the handler test "Success" followed by the text
` trailing garbage` is not valid JSON, and its title and body are not empty.  The decoder behind
`c.ShouldBindJSON` reads the first JSON value and does not look at what follows it, so the body
binds: the handler calls CreateIssue of the service and answers 201, not 400. -/
theorem C2_counterexample :
    (issueContext "test-repo" trailingGarbageDocument).Param "repo" = "test-repo" ∧
    validJSON trailingGarbageDocument = false ∧
    ShouldBindJSON decodingRuntime (issueContext "test-repo" trailingGarbageDocument) =
      .ok { Title := "Test Issue", Body := "This is a test issue" } ∧
    ((NewGitHubHandler successMock.service).CreateIssue decodingRuntime
        (issueContext "test-repo" trailingGarbageDocument) (World.start [])).1 =
      .wrote { Status := 201,
               Body := "\x7b\"number\":1,\"title\":\"Test Issue\",\"html_url\":\"https://github.com/test-user/test-repo/issues/1\"\x7d" } ∧
    ((NewGitHubHandler successMock.service).CreateIssue decodingRuntime
        (issueContext "test-repo" trailingGarbageDocument) (World.start [])).2.remote =
      [.CreateIssue "test-repo" { Title := "Test Issue", Body := "This is a test issue" }] :=
  ⟨rfl, by decide, rfl, rfl, rfl⟩

/-- C2, amended: a request to the CreateIssue handler with a non-empty repo name whose body the
JSON decoder rejects (the decoder reads the first JSON value of the body only), or whose decoded
title or body is empty (a missing field decodes to the empty string), is answered with status 400
and the validation ErrorResponse, and the world is returned as it was: the service was not called
(the recording mock has recorded no call). -/
theorem C2_invalid_body_is_400_without_client_call {σ : Type} (rt : Runtime) (h : GitHubHandler σ)
    (c : Context) (w : World σ) (hrepo : c.Param "repo" ≠ "")
    (hbad : (∃ err, rt.decodeIssueRequest c.Request.Body = .error err) ∨
      (∃ r, rt.decodeIssueRequest c.Request.Body = .ok r ∧ (r.Title = "" ∨ r.Body = ""))) :
    h.CreateIssue rt c w =
      (.wrote { Status := 400,
                Body := rt.Marshal
                  (.ErrorResponse { Error := "Invalid request: title and body are required" }) }, w) ∧
    (∀ (m : MockGitHubService) (wm : World (List ServiceCall)),
      ((NewGitHubHandler m.service).CreateIssue rt c wm).2.remote = wm.remote) := by
  have hbind : ∃ err, ShouldBindJSON rt c = .error err := by
    rcases hbad with ⟨err, herr⟩ | ⟨r, hr, hempty⟩
    · exact ⟨err, by simp [ShouldBindJSON, herr]⟩
    · rcases hempty with ht | hb
      · exact ⟨.New ("validation failed on field " ++ "Title"),
          by simp [ShouldBindJSON, hr, IssueRequest.validate, ht]⟩
      · by_cases ht : r.Title = ""
        · exact ⟨.New ("validation failed on field " ++ "Title"),
            by simp [ShouldBindJSON, hr, IssueRequest.validate, ht]⟩
        · exact ⟨.New ("validation failed on field " ++ "Body"),
            by simp [ShouldBindJSON, hr, IssueRequest.validate, ht, hb]⟩
  obtain ⟨err, herr⟩ := hbind
  refine ⟨?_, fun m wm => ?_⟩ <;> simp [GitHubHandler.CreateIssue, hrepo, herr, JSON]

/-- C2 amended, an instance: the request of the handler test "Invalid Request", whose body has an
empty title and no body field. -/
theorem C2_witness :
    ((NewGitHubHandler successMock.service).CreateIssue exampleRuntime
        (issueContext "test-repo" "\x7b\"title\":\"\"\x7d") (World.start [])).1 =
      .wrote { Status := 400,
               Body := "\x7b\"error\":\"Invalid request: title and body are required\"\x7d" } ∧
    ((NewGitHubHandler successMock.service).CreateIssue exampleRuntime
        (issueContext "test-repo" "\x7b\"title\":\"\"\x7d") (World.start [])).2.remote = [] :=
  have h := C2_invalid_body_is_400_without_client_call exampleRuntime
    (NewGitHubHandler successMock.service) (issueContext "test-repo" "\x7b\"title\":\"\"\x7d")
    (World.start []) (by decide) (Or.inr ⟨{ Title := "", Body := "" }, rfl, Or.inl rfl⟩)
  ⟨congrArg Prod.fst h.1, h.2 successMock (World.start [])⟩

/-- C3: whenever the remote answers a call of the client with a status outside the 2xx range,
whatever the body of that answer, each of the three handlers answers with status 500 and with the
fixed ErrorResponse of the handler.  The body written is the same for every remote answer: it
is built from the fixed message alone, the remote text does not enter it. -/
theorem C3_remote_error_is_500_with_fixed_body {σ : Type} (rt : Runtime) (s : GitHubService σ)
    (c : Context) (w : World σ) (ex : Exchange) (resp : HttpResponse)
    (hres : ex.res = .ok resp) (hst : ¬ is2xx resp.StatusCode) :
    (ex ∈ ((s.handler rt).GetUserProfile rt c w).2.since w →
      ((s.handler rt).GetUserProfile rt c w).1 =
        .wrote { Status := 500,
                 Body := rt.Marshal
                   (.ErrorResponse { Error := "Failed to retrieve GitHub profile" }) }) ∧
    (ex ∈ ((s.handler rt).GetRepository rt c w).2.since w →
      ((s.handler rt).GetRepository rt c w).1 =
        .wrote { Status := 500,
                 Body := rt.Marshal
                   (.ErrorResponse { Error := "Failed to retrieve repository information" }) }) ∧
    (ex ∈ ((s.handler rt).CreateIssue rt c w).2.since w →
      ((s.handler rt).CreateIssue rt c w).1 =
        .wrote { Status := 500,
                 Body := rt.Marshal (.ErrorResponse { Error := "Failed to create issue" }) }) := by
  have h200 : resp.StatusCode ≠ 200 := fun h => hst (by rw [h]; decide)
  have h201 : resp.StatusCode ≠ 201 := fun h => hst (by rw [h]; decide)
  refine ⟨fun hex => ?_, fun hex => ?_, fun hex => ?_⟩
  · simp only [GitHubService.handler, NewGitHubHandler, NewGitHubService,
      GitHubHandler.GetUserProfile] at hex ⊢
    cases hp : s.GetUserProfile rt w with
    | mk r w1 =>
      have b := GetUserProfile_bad_answer rt s w ex
      rw [hp] at b
      cases r with
      | error e => simp [JSON]
      | ok profile =>
        have := b (by simpa [hp] using hex) resp hres h200
        cases this
  · simp only [GitHubService.handler, NewGitHubHandler, NewGitHubService,
      GitHubHandler.GetRepository] at hex ⊢
    by_cases hrepo : c.Param "repo" = ""
    · simp [hrepo, World.since] at hex
    · cases hp : s.GetRepository rt (c.Param "repo") w with
      | mk r w1 =>
        have b := roundTrip_bad_answer s (s.repositoryRequest (c.Param "repo")) 200
          rt.decodeRepository w (rt.urlParse (s.repositoryURL (c.Param "repo"))) ex
        rw [← GetRepository_eq, hp] at b
        cases r with
        | error e => simp [hrepo, JSON, hp]
        | ok repo =>
          have := b (by simpa [hrepo, hp] using hex) resp hres h200
          cases this
  · simp only [GitHubService.handler, NewGitHubHandler, NewGitHubService,
      GitHubHandler.CreateIssue] at hex ⊢
    by_cases hrepo : c.Param "repo" = ""
    · simp [hrepo, World.since] at hex
    · cases hb : ShouldBindJSON rt c with
      | error e => simp [hrepo, hb, World.since] at hex
      | ok issue =>
        cases hp : s.CreateIssue rt (c.Param "repo") issue w with
        | mk r w1 =>
          have b := roundTrip_bad_answer s (s.issueRequest rt (c.Param "repo") issue) 201
            rt.decodeIssueResponse w (rt.urlParse (s.issuesURL (c.Param "repo"))) ex
          rw [← CreateIssue_eq, hp] at b
          cases r with
          | error e => simp [hrepo, hb, JSON, hp]
          | ok issueResponse =>
            have := b (by simpa [hrepo, hb, hp] using hex) resp hres h201
            cases this

/-- C3, an instance: the remote answers 404 with the document of the tests "Not Found", to the
user request, to the repository request and to the issue request. -/
theorem C3_witness :
    (((profileTestService 404 notFoundDocument "[]").handler exampleRuntime).GetUserProfile
        exampleRuntime (repositoryContext "") (World.start 0)).1 =
      .wrote { Status := 500, Body := "\x7b\"error\":\"Failed to retrieve GitHub profile\"\x7d" } ∧
    (((testService 404 notFoundDocument).handler exampleRuntime).GetRepository
        exampleRuntime (repositoryContext "non-existent-repo") (World.start ())).1 =
      .wrote { Status := 500,
               Body := "\x7b\"error\":\"Failed to retrieve repository information\"\x7d" } ∧
    (((testService 404 notFoundDocument).handler exampleRuntime).CreateIssue
        exampleRuntime (issueContext "non-existent-repo" issueRequestDocument)
        (World.start ())).1 =
      .wrote { Status := 500, Body := "\x7b\"error\":\"Failed to create issue\"\x7d" } :=
  ⟨(C3_remote_error_is_500_with_fixed_body exampleRuntime
      (profileTestService 404 notFoundDocument "[]") (repositoryContext "") (World.start 0)
      ⟨(profileTestService 404 notFoundDocument "[]").userRequest,
        .ok { StatusCode := 404, Body := notFoundDocument }⟩
      { StatusCode := 404, Body := notFoundDocument } rfl (by decide)).1
      (List.mem_singleton.mpr rfl),
   (C3_remote_error_is_500_with_fixed_body exampleRuntime
      (testService 404 notFoundDocument) (repositoryContext "non-existent-repo") (World.start ())
      ⟨(testService 404 notFoundDocument).repositoryRequest "non-existent-repo",
        .ok { StatusCode := 404, Body := notFoundDocument }⟩
      { StatusCode := 404, Body := notFoundDocument } rfl (by decide)).2.1
      (List.mem_singleton.mpr rfl),
   (C3_remote_error_is_500_with_fixed_body exampleRuntime
      (testService 404 notFoundDocument) (issueContext "non-existent-repo" issueRequestDocument)
      (World.start ())
      ⟨(testService 404 notFoundDocument).issueRequest exampleRuntime "non-existent-repo" testIssue,
        .ok { StatusCode := 404, Body := notFoundDocument }⟩
      { StatusCode := 404, Body := notFoundDocument } rfl (by decide)).2.2
      (List.mem_singleton.mpr rfl)⟩

/-- C4: when GetUserProfile succeeds it has sent exactly two requests, the user request first and
the repositories request second.  When the user sub-fetch fails, GetUserProfile ends there, in the
world the sub-fetch left: no request is sent after the failure, so at most the user request was
sent, and exactly the user request whenever it could be built (its URL parses). -/
theorem C4_two_reads_on_success_one_on_user_failure {σ : Type} (rt : Runtime)
    (s : GitHubService σ) (w : World σ) :
    (∀ profile w2, s.GetUserProfile rt w = (.ok profile, w2) →
      w2.sent = w.sent ++ [s.userRequest, s.reposRequest]) ∧
    (∀ err w1, s.getUser rt w = (.error err, w1) →
      s.GetUserProfile rt w = (.error err, w1) ∧
      (w1.sent = w.sent ∨ w1.sent = w.sent ++ [s.userRequest]) ∧
      (∀ u, rt.urlParse s.userURL = .ok u → w1.sent = w.sent ++ [s.userRequest])) := by
  refine ⟨fun profile w2 h => ?_, fun err w1 h1 => ⟨?_, ?_, fun u hu => ?_⟩⟩
  · unfold GitHubService.GetUserProfile at h
    cases h1 : s.getUser rt w with
    | mk r1 w1 =>
      cases r1 with
      | error e => simp [h1] at h
      | ok user =>
        cases h2 : s.getUserRepositories rt w1 with
        | mk r2 w2b =>
          cases r2 with
          | error e => simp [h1, h2] at h
          | ok repos =>
            simp [h1, h2] at h
            obtain ⟨_, rfl⟩ := h
            have e1 := roundTrip_ok_exchanges s s.userRequest 200 rt.decodeUser w
              (rt.urlParse s.userURL) user (by rw [← getUser_eq, h1])
            rw [← getUser_eq, h1] at e1
            have e2 := roundTrip_ok_exchanges s s.reposRequest 200 rt.decodeRepositories w1
              (rt.urlParse s.reposURL) repos (by rw [← getUserRepositories_eq, h2])
            rw [← getUserRepositories_eq, h2] at e2
            simp only at e1 e2
            simp [World.sent, e2, e1]
  · simp [GitHubService.GetUserProfile, h1]
  · rw [getUser_eq] at h1
    cases hp : rt.urlParse s.userURL with
    | error e =>
      rw [hp, roundTrip_parse_error] at h1
      left
      rw [← (Prod.mk.inj h1).2]
    | ok u =>
      right
      have e1 := roundTrip_exchanges s s.userRequest 200 rt.decodeUser w u
      rw [← hp, h1] at e1
      exact sent_of_exchanges w w1 _ e1
  · rw [getUser_eq, hu] at h1
    have e1 := roundTrip_exchanges s s.userRequest 200 rt.decodeUser w u
    rw [h1] at e1
    exact sent_of_exchanges w w1 _ e1

/-- C4, an instance: the tests "Success" and "User API Error" of `TestGetUserProfile`. -/
theorem C4_witness :
    ((profileTestService 200 userDocument reposDocument).GetUserProfile exampleRuntime
        (World.start 0)).2.sent =
      [(profileTestService 200 userDocument reposDocument).userRequest,
       (profileTestService 200 userDocument reposDocument).reposRequest] ∧
    ((profileTestService 404 notFoundDocument "[]").getUser exampleRuntime
        (World.start 0)).2.sent =
      [(profileTestService 404 notFoundDocument "[]").userRequest] :=
  ⟨(C4_two_reads_on_success_one_on_user_failure exampleRuntime
      (profileTestService 200 userDocument reposDocument) (World.start 0)).1 _ _ rfl,
   ((C4_two_reads_on_success_one_on_user_failure exampleRuntime
      (profileTestService 404 notFoundDocument "[]") (World.start 0)).2 _ _ rfl).2.2 () rfl⟩

/-- C5: when the user sub-fetch fails, GetUserProfile returns no profile and fails with exactly
the error of the sub-fetch; when the user sub-fetch succeeds and the repositories sub-fetch fails,
GetUserProfile returns no profile and fails with exactly the error of that sub-fetch. -/
theorem C5_sub_fetch_error_is_returned_unchanged {σ : Type} (rt : Runtime) (s : GitHubService σ)
    (w : World σ) :
    (∀ err w1, s.getUser rt w = (.error err, w1) →
      (s.GetUserProfile rt w).1 = .error err) ∧
    (∀ user w1 err w2, s.getUser rt w = (.ok user, w1) →
      s.getUserRepositories rt w1 = (.error err, w2) →
      (s.GetUserProfile rt w).1 = .error err) := by
  refine ⟨fun err w1 h1 => ?_, fun user w1 err w2 h1 h2 => ?_⟩
  · simp [GitHubService.GetUserProfile, h1]
  · simp [GitHubService.GetUserProfile, h1, h2]

/-- C5, an instance: the test "User API Error", where the remote answers 404, and a remote that
answers the repositories request with a document that is not a list. -/
theorem C5_witness :
    ((profileTestService 404 notFoundDocument "[]").GetUserProfile exampleRuntime
        (World.start 0)).1 = .error (.Status 404) ∧
    ((profileTestService 200 userDocument notFoundDocument).GetUserProfile exampleRuntime
        (World.start 0)).1 = .error (.Wrap "failed to decode response" decodeError) :=
  ⟨(C5_sub_fetch_error_is_returned_unchanged exampleRuntime
      (profileTestService 404 notFoundDocument "[]") (World.start 0)).1 _ _ rfl,
   (C5_sub_fetch_error_is_returned_unchanged exampleRuntime
      (profileTestService 200 userDocument notFoundDocument) (World.start 0)).2 _ _ _ _ rfl rfl⟩

/-- C6: CreateIssue of the service returns an IssueResponse only when the remote answered with
status 201; when the remote answers with any other status, 200 and the rest of the 2xx range
included, it returns the status error and no IssueResponse, whatever the body of the answer. -/
theorem C6_create_issue_succeeds_only_on_201 {σ : Type} (rt : Runtime) (s : GitHubService σ)
    (repoName : String) (issue : IssueRequest) (w : World σ) :
    (∀ issueResponse w1, s.CreateIssue rt repoName issue w = (.ok issueResponse, w1) →
      ∃ resp, (s.client (s.issueRequest rt repoName issue) w.remote).1 = .ok resp ∧
        resp.StatusCode = 201) ∧
    (∀ u resp, rt.urlParse (s.issuesURL repoName) = .ok u →
      (s.client (s.issueRequest rt repoName issue) w.remote).1 = .ok resp →
      resp.StatusCode ≠ 201 →
      (s.CreateIssue rt repoName issue w).1 = .error (.Status resp.StatusCode)) := by
  refine ⟨fun issueResponse w1 h => ?_, fun u resp hu hres hst => ?_⟩
  · rw [CreateIssue_eq] at h
    obtain ⟨_, resp, hres, hst, _⟩ := roundTrip_ok_inv s _ 201 rt.decodeIssueResponse w _
      issueResponse (congrArg Prod.fst h)
    exact ⟨resp, hres, hst⟩
  · rw [CreateIssue_eq, hu]
    exact roundTrip_status s _ 201 rt.decodeIssueResponse w u resp hres hst

/-- C6, an instance: the test "Success" of `TestCreateIssue`, where the remote answers 201, and a
remote that answers 200 with the same document, which is an error. -/
theorem C6_witness :
    (∃ resp, ((testService 201 issueDocument).client
        ((testService 201 issueDocument).issueRequest exampleRuntime "test-repo" testIssue) ()).1 =
          .ok resp ∧ resp.StatusCode = 201) ∧
    ((testService 200 issueDocument).CreateIssue exampleRuntime "test-repo" testIssue
        (World.start ())).1 = .error (.Status 200) :=
  ⟨(C6_create_issue_succeeds_only_on_201 exampleRuntime (testService 201 issueDocument)
      "test-repo" testIssue (World.start ())).1 _ _ rfl,
   (C6_create_issue_succeeds_only_on_201 exampleRuntime (testService 200 issueDocument)
      "test-repo" testIssue (World.start ())).2 () _ rfl rfl (by decide)⟩

/-- C7, the claim fails: the request `POST /github/%25zz/issues` has the non-empty repo name
`%zz` and the well-formed body of the handler test, with non-empty title and body.  The URL that
CreateIssue of the client builds from the name does not parse, `http.NewRequest` fails, and the
handler answers 500 although no request was sent to the remote, which would have answered 201. -/
theorem C7_counterexample :
    (issueContext "%zz" issueRequestDocument).Param "repo" = "%zz" ∧
    ShouldBindJSON exampleRuntime (issueContext "%zz" issueRequestDocument) =
      .ok { Title := "Test Issue", Body := "This is a test issue" } ∧
    exampleRuntime.urlParse "https://api.github.com/repos/test-user/%zz/issues" =
      .error (.New "invalid URL escape") ∧
    (((testService 201 issueDocument).handler exampleRuntime).CreateIssue exampleRuntime
        (issueContext "%zz" issueRequestDocument) (World.start ())).2.sent = [] ∧
    (((testService 201 issueDocument).handler exampleRuntime).CreateIssue exampleRuntime
        (issueContext "%zz" issueRequestDocument) (World.start ())).1 =
      .wrote { Status := 500, Body := "\x7b\"error\":\"Failed to create issue\"\x7d" } :=
  ⟨rfl, rfl, rfl, rfl, rfl⟩

/-- C7, amended: for a request to the CreateIssue handler with a non-empty repo name and a body
that decodes to an IssueRequest with non-empty title and body, the handler makes exactly one call
to CreateIssue of the service, with that repo name and that IssueRequest (the recording mock
records exactly this call).  The client behind it sends exactly one request, the POST for that
repo name with the marshalled IssueRequest as body, when the URL built from the repo name parses;
when it does not parse, no request is sent and the handler answers 500.  When the request is sent
and the remote answers 201 with a document that decodes to an IssueResponse, the handler answers
201 with the serialization of that IssueResponse, issue number included. -/
theorem C7_create_issue_handler_one_call_and_201 {σ : Type} (rt : Runtime) (s : GitHubService σ)
    (c : Context) (w : World σ) (issue : IssueRequest) (hrepo : c.Param "repo" ≠ "")
    (hdec : rt.decodeIssueRequest c.Request.Body = .ok issue) (ht : issue.Title ≠ "")
    (hb : issue.Body ≠ "") :
    (∀ (m : MockGitHubService) (wm : World (List ServiceCall)),
      ((NewGitHubHandler m.service).CreateIssue rt c wm).2.remote =
        wm.remote ++ [.CreateIssue (c.Param "repo") issue]) ∧
    (∀ u, rt.urlParse (s.issuesURL (c.Param "repo")) = .ok u →
      ((s.handler rt).CreateIssue rt c w).2.sent =
        w.sent ++ [s.issueRequest rt (c.Param "repo") issue]) ∧
    (∀ err, rt.urlParse (s.issuesURL (c.Param "repo")) = .error err →
      ((s.handler rt).CreateIssue rt c w).2.sent = w.sent ∧
      ((s.handler rt).CreateIssue rt c w).1 =
        .wrote { Status := 500,
                 Body := rt.Marshal (.ErrorResponse { Error := "Failed to create issue" }) }) ∧
    (∀ u resp issueResponse, rt.urlParse (s.issuesURL (c.Param "repo")) = .ok u →
      (s.client (s.issueRequest rt (c.Param "repo") issue) w.remote).1 = .ok resp →
      resp.StatusCode = 201 → rt.decodeIssueResponse resp.Body = .ok issueResponse →
      ((s.handler rt).CreateIssue rt c w).1 =
        .wrote { Status := 201, Body := rt.Marshal (.IssueResponse issueResponse) }) := by
  have hbind : ShouldBindJSON rt c = .ok issue := by
    simp [ShouldBindJSON, hdec, IssueRequest.validate, ht, hb]
  have hrun : (s.handler rt).CreateIssue rt c w =
      match s.CreateIssue rt (c.Param "repo") issue w with
      | (.error err, w1) =>
        (JSON rt 500 (.ErrorResponse { Error := "Failed to create issue" }),
          w1.logrus "error" "Failed to create issue"
            [("error", err.Error), ("repo", c.Param "repo")])
      | (.ok issueResponse, w1) => (JSON rt 201 (.IssueResponse issueResponse), w1) := by
    simp [GitHubService.handler, NewGitHubHandler, NewGitHubService, GitHubHandler.CreateIssue,
      hrepo, hbind]
  have hsent : ((s.handler rt).CreateIssue rt c w).2.sent =
      (s.CreateIssue rt (c.Param "repo") issue w).2.sent := by
    rw [hrun]
    cases hp : s.CreateIssue rt (c.Param "repo") issue w with
    | mk r w1 => cases r <;> simp [World.sent, World.logrus]
  refine ⟨fun m wm => ?_, fun u hu => ?_, fun err herr => ⟨?_, ?_⟩,
    fun u resp issueResponse hu hres hst hd => ?_⟩
  · simp only [NewGitHubHandler, GitHubHandler.CreateIssue, hrepo, hbind, if_false,
      MockGitHubService.service]
    cases m.onCreateIssue (c.Param "repo") issue <;> simp [World.logrus]
  · rw [hsent, CreateIssue_eq, hu]
    exact sent_of_exchanges w _ _ (roundTrip_exchanges s _ 201 rt.decodeIssueResponse w u)
  · rw [hsent, CreateIssue_eq, herr, roundTrip_parse_error]
  · rw [hrun, CreateIssue_eq, herr, roundTrip_parse_error]
    simp [JSON]
  · have hr := roundTrip_decode s (s.issueRequest rt (c.Param "repo") issue) 201
      rt.decodeIssueResponse w u resp hres hst
    rw [hd, ← hu, ← CreateIssue_eq] at hr
    rw [hrun]
    cases hp : s.CreateIssue rt (c.Param "repo") issue w with
    | mk r w1 =>
      rw [hp] at hr
      simp only at hr
      subst hr
      simp [JSON]

/-- C7 amended, an instance: the test "Success" of the handler test `TestCreateIssue`, run
against the client behind a remote that answers 201 with the issue document of the service
test. -/
theorem C7_witness :
    ((NewGitHubHandler successMock.service).CreateIssue exampleRuntime
        (issueContext "test-repo" issueRequestDocument) (World.start [])).2.remote =
      [.CreateIssue "test-repo" { Title := "Test Issue", Body := "This is a test issue" }] ∧
    (((testService 201 issueDocument).handler exampleRuntime).CreateIssue exampleRuntime
        (issueContext "test-repo" issueRequestDocument) (World.start ())).2.sent =
      [(testService 201 issueDocument).issueRequest exampleRuntime "test-repo" testIssue] ∧
    (((testService 201 issueDocument).handler exampleRuntime).CreateIssue exampleRuntime
        (issueContext "test-repo" issueRequestDocument) (World.start ())).1 =
      .wrote { Status := 201,
               Body := "\x7b\"number\":1,\"title\":\"Test Issue\",\"html_url\":\"https://github.com/test-user/test-repo/issues/1\"\x7d" } :=
  have h := C7_create_issue_handler_one_call_and_201 exampleRuntime (testService 201 issueDocument)
    (issueContext "test-repo" issueRequestDocument) (World.start ()) testIssue (by decide) rfl
    (by decide) (by decide)
  ⟨h.1 successMock (World.start []), h.2.1 () rfl, h.2.2.2 () _ _ rfl rfl rfl rfl⟩

/-- C8, the claim fails: the remote answers the repository request with status 201, which is in
the 2xx range, and with a document that decodes to a repository; there is no transport failure;
yet GetRepository returns an error. -/
theorem C8_counterexample :
    ((testService 201 repositoryDocument).client
        ((testService 201 repositoryDocument).repositoryRequest "test-repo") ()).1 =
      .ok { StatusCode := 201, Body := repositoryDocument } ∧
    is2xx 201 ∧
    exampleRuntime.decodeRepository repositoryDocument =
      .ok { Name := "test-repo", FullName := "test-user/test-repo",
            Description := some "Test repository" } ∧
    ((testService 201 repositoryDocument).GetRepository exampleRuntime "test-repo"
        (World.start ())).1 = .error (.Status 201) :=
  ⟨rfl, by decide, rfl, rfl⟩

/-- C8, amended: for the three read operations of the client (GetRepository, the user fetch and
the repositories fetch), when the request is sent, the transport does not fail and the body of the
answer decodes to a value of the expected type, the operation returns an error if and only if the
status of the answer is not 200, and that error is the status error; an answer with status 200 is
decoded into the typed result. -/
theorem C8_read_fails_iff_status_is_not_200 {σ : Type} (rt : Runtime) (s : GitHubService σ)
    (repoName : String) (w : World σ) :
    (∀ u resp repo, rt.urlParse (s.repositoryURL repoName) = .ok u →
      (s.client (s.repositoryRequest repoName) w.remote).1 = .ok resp →
      rt.decodeRepository resp.Body = .ok repo →
      ((∃ err, (s.GetRepository rt repoName w).1 = .error err) ↔ resp.StatusCode ≠ 200) ∧
      (resp.StatusCode ≠ 200 →
        (s.GetRepository rt repoName w).1 = .error (.Status resp.StatusCode)) ∧
      (resp.StatusCode = 200 → (s.GetRepository rt repoName w).1 = .ok repo)) ∧
    (∀ u resp user, rt.urlParse s.userURL = .ok u →
      (s.client s.userRequest w.remote).1 = .ok resp →
      rt.decodeUser resp.Body = .ok user →
      ((∃ err, (s.getUser rt w).1 = .error err) ↔ resp.StatusCode ≠ 200) ∧
      (resp.StatusCode ≠ 200 → (s.getUser rt w).1 = .error (.Status resp.StatusCode)) ∧
      (resp.StatusCode = 200 → (s.getUser rt w).1 = .ok user)) ∧
    (∀ u resp repos, rt.urlParse s.reposURL = .ok u →
      (s.client s.reposRequest w.remote).1 = .ok resp →
      rt.decodeRepositories resp.Body = .ok repos →
      ((∃ err, (s.getUserRepositories rt w).1 = .error err) ↔ resp.StatusCode ≠ 200) ∧
      (resp.StatusCode ≠ 200 →
        (s.getUserRepositories rt w).1 = .error (.Status resp.StatusCode)) ∧
      (resp.StatusCode = 200 → (s.getUserRepositories rt w).1 = .ok repos)) := by
  have key : ∀ {α : Type} (req : HttpRequest) (decode : String → Except GoError α) (u : Unit)
      (resp : HttpResponse) (v : α), (s.client req w.remote).1 = .ok resp →
      decode resp.Body = .ok v →
      ((∃ err, (s.roundTrip (.ok u) req 200 decode w).1 = .error err) ↔ resp.StatusCode ≠ 200) ∧
      (resp.StatusCode ≠ 200 →
        (s.roundTrip (.ok u) req 200 decode w).1 = .error (.Status resp.StatusCode)) ∧
      (resp.StatusCode = 200 → (s.roundTrip (.ok u) req 200 decode w).1 = .ok v) := by
    intro α req decode u resp v hres hd
    have hok : resp.StatusCode = 200 → (s.roundTrip (.ok u) req 200 decode w).1 = .ok v := by
      intro hst
      rw [roundTrip_decode s req 200 decode w u resp hres hst, hd]
    have herr : resp.StatusCode ≠ 200 →
        (s.roundTrip (.ok u) req 200 decode w).1 = .error (.Status resp.StatusCode) :=
      roundTrip_status s req 200 decode w u resp hres
    refine ⟨⟨fun ⟨err, he⟩ hst => ?_, fun hst => ⟨_, herr hst⟩⟩, herr, hok⟩
    rw [hok hst] at he
    cases he
  refine ⟨fun u resp repo hu hres hd => ?_, fun u resp user hu hres hd => ?_,
    fun u resp repos hu hres hd => ?_⟩
  · rw [GetRepository_eq, hu]
    exact key _ _ u resp repo hres hd
  · rw [getUser_eq, hu]
    exact key _ _ u resp user hres hd
  · rw [getUserRepositories_eq, hu]
    exact key _ _ u resp repos hres hd

/-- C8 amended, an instance: the tests "Success" and "Repository Not Found" of
`TestGetRepository`. -/
theorem C8_witness :
    ((testService 200 repositoryDocument).GetRepository exampleRuntime "test-repo"
        (World.start ())).1 =
      .ok { Name := "test-repo", FullName := "test-user/test-repo",
            Description := some "Test repository" } ∧
    ((testService 404 notFoundDocument).GetRepository exampleRuntime "non-existent-repo"
        (World.start ())).1 = .error (.Status 404) :=
  ⟨((C8_read_fails_iff_status_is_not_200 exampleRuntime (testService 200 repositoryDocument)
      "test-repo" (World.start ())).1 () _ _ rfl rfl rfl).2.2 rfl,
   ((C8_read_fails_iff_status_is_not_200 exampleRuntime (testService 404 notFoundDocument)
      "non-existent-repo" (World.start ())).1 () _ _ rfl rfl rfl).2.1 (by decide)⟩

/-- C9: when the call on the service succeeds, the GetUserProfile handler answers 200 with the
JSON serialization of exactly the profile the service returned, and the GetRepository handler, for
a non-empty name, answers 200 with the JSON serialization of exactly the repository the service
returned for that name. -/
theorem C9_success_is_200_with_the_client_value {σ : Type} (rt : Runtime) (h : GitHubHandler σ)
    (c : Context) (w : World σ) :
    (∀ profile w1, h.service.GetUserProfile w = (.ok profile, w1) →
      h.GetUserProfile rt c w =
        (.wrote { Status := 200, Body := rt.Marshal (.GithubProfile profile) }, w1)) ∧
    (∀ repo w1, c.Param "repo" ≠ "" →
      h.service.GetRepository (c.Param "repo") w = (.ok repo, w1) →
      h.GetRepository rt c w =
        (.wrote { Status := 200, Body := rt.Marshal (.Repository repo) }, w1)) := by
  refine ⟨fun profile w1 hp => ?_, fun repo w1 hrepo hr => ?_⟩
  · simp [GitHubHandler.GetUserProfile, hp, JSON]
  · simp [GitHubHandler.GetRepository, hrepo, hr, JSON]

/-- C9, an instance: the "Success" cases of the handler tests for `GET /github` and
`GET /github/test-repo`. -/
theorem C9_witness :
    ((NewGitHubHandler successMock.service).GetUserProfile exampleRuntime
        (repositoryContext "") (World.start [])).1 =
      .wrote { Status := 200,
               Body := exampleMarshal (.GithubProfile
                 { User := { Login := "test-user", Name := "Test User", Followers := 10,
                             Following := 20 },
                   Repositories :=
                     [{ Name := "repo1", FullName := "test-user/repo1", Description := none },
                      { Name := "repo2", FullName := "test-user/repo2", Description := none }] }) } ∧
    ((NewGitHubHandler successMock.service).GetRepository exampleRuntime
        (repositoryContext "test-repo") (World.start [])).1 =
      .wrote { Status := 200,
               Body := "\x7b\"name\":\"test-repo\",\"full_name\":\"test-user/test-repo\",\"description\":null\x7d" } :=
  have h := C9_success_is_200_with_the_client_value exampleRuntime
    (NewGitHubHandler successMock.service) (repositoryContext "test-repo") (World.start [])
  ⟨congrArg Prod.fst (h.1 _ _ rfl), congrArg Prod.fst (h.2 _ _ (by decide) rfl)⟩

/-- C10, the claim fails: the request `GET /health/` matches none of the declared routes, and the
router built by SetupRouter answers it with a redirect, status 301, not with 404. -/
theorem C10_counterexample :
    matchesDeclaredRoute "GET" "/health/" = false ∧
    ((SetupRouter exampleRuntime testConfig (constTransport 200 "")).ServeHTTP exampleRuntime
        (plainRequest "GET" "/health/") (World.start ())).1 = .redirect 301 :=
  ⟨by decide, rfl⟩

/-- C10, amended: a request whose method and path match none of the declared routes (GET /health,
GET /github, GET /github/:repo, POST /github/:repo/issues) is answered by the router built by
SetupRouter with status 404 and without any outbound call, provided the route tree does not
recommend a trailing-slash redirect for it and the CORS middleware does not abort it.  When the
route tree recommends the redirect (and the request is not a CONNECT nor for the path `/`), the
answer is the redirect, with status 301 for GET and 307 for any other method; when the CORS
middleware aborts the request, the answer has the status the middleware chose. -/
theorem C10_unmatched_request_is_404_or_redirect {σ : Type} (rt : Runtime) (config : Config)
    (client : HttpRequest → σ → Except GoError HttpResponse × σ) (req : Request) (w : World σ)
    (hno : matchesDeclaredRoute req.Method req.Path = false) :
    (rt.tsr declaredRoutes req.Method req.Path = false →
      rt.cors config.CORS.AllowOrigins req.Method req.Header = none →
      ((SetupRouter rt config client).ServeHTTP rt req w).1 =
          .wrote { Status := 404, Body := "404 page not found" } ∧
        ((SetupRouter rt config client).ServeHTTP rt req w).2.exchanges = w.exchanges) ∧
    (rt.tsr declaredRoutes req.Method req.Path = true → req.Method ≠ "CONNECT" → req.Path ≠ "/" →
      (SetupRouter rt config client).ServeHTTP rt req w =
        (.redirect (if req.Method = "GET" then 301 else 307), w)) ∧
    (∀ code, rt.tsr declaredRoutes req.Method req.Path = false →
      rt.cors config.CORS.AllowOrigins req.Method req.Header = some code →
      ((SetupRouter rt config client).ServeHTTP rt req w).1 =
          .wrote { Status := code, Body := "" } ∧
        ((SetupRouter rt config client).ServeHTTP rt req w).2.exchanges = w.exchanges) := by
  have hget : getValue (SetupRouter rt config client).routes req.Method req.Path = none :=
    getValue_eq_none _ _ _ (by rw [SetupRouter_routes]; exact hno)
  have hroutes := SetupRouter_routes rt config client
  have hchain : ∀ handler : HandlerFunc σ, (SetupRouter rt config client).chain handler =
      Logger (ErrorHandler rt (CORS rt config.CORS handler)) := fun _ => rfl
  have hredirect : (SetupRouter rt config client).RedirectTrailingSlash = true := rfl
  refine ⟨fun htsr hcors => ?_, fun htsr hconnect hroot => ?_, fun code htsr hcors => ?_⟩
  · simp only [Engine.ServeHTTP, hget, hroutes, htsr, hchain]
    simp [Logger, ErrorHandler, CORS, hcors, noRoute, World.logrus]
  · simp only [Engine.ServeHTTP, hget, hroutes, htsr, hredirect]
    simp [hconnect, hroot]
  · simp only [Engine.ServeHTTP, hget, hroutes, htsr, hchain]
    simp only [Logger, ErrorHandler, CORS, hcors]
    simp only [Bool.false_eq_true, and_false, if_false]
    split_ifs <;> simp [World.logrus]

/-- C10 amended, an instance: the request `GET /non-existent` of the integration test, answered
404, and the request `POST /github/test-repo/issues/`, redirected with 307. -/
theorem C10_witness :
    ((SetupRouter exampleRuntime testConfig (constTransport 200 "")).ServeHTTP exampleRuntime
        (plainRequest "GET" "/non-existent") (World.start ())).1 =
      .wrote { Status := 404, Body := "404 page not found" } ∧
    ((SetupRouter exampleRuntime testConfig (constTransport 200 "")).ServeHTTP exampleRuntime
        (plainRequest "POST" "/github/test-repo/issues/") (World.start ())).1 = .redirect 307 :=
  ⟨((C10_unmatched_request_is_404_or_redirect exampleRuntime testConfig (constTransport 200 "")
      (plainRequest "GET" "/non-existent") (World.start ()) (by decide)).1
      (by decide) (by decide)).1,
   congrArg Prod.fst
    ((C10_unmatched_request_is_404_or_redirect exampleRuntime testConfig (constTransport 200 "")
      (plainRequest "POST" "/github/test-repo/issues/") (World.start ()) (by decide)).2.1
      (by decide) (by decide) (by decide))⟩

/-- C11: the repositories sub-fetch of GetUserProfile sends at most one request, and exactly one
when the request can be built.  That request is a GET without body to
`https://api.github.com/users/<configured account>/repos?` followed by the query string
`type=owner&sort=updated&per_page=100`, whose parameters are type=owner, sort=updated and
per_page=100: the page size asked of the remote is 100 and the order is by update. -/
theorem C11_repositories_request_is_one_get_with_query {σ : Type} (rt : Runtime)
    (s : GitHubService σ) (w : World σ) :
    (s.reposRequest.Method = "GET" ∧ s.reposRequest.Body = none ∧
      s.reposRequest.URL =
        "https://api.github.com/users/" ++ s.config.GitHub.Username ++ "/repos" ++ "?" ++
          "type=owner&sort=updated&per_page=100" ∧
      queryPairs "type=owner&sort=updated&per_page=100" =
        [("type", "owner"), ("sort", "updated"), ("per_page", "100")]) ∧
    (∀ u, rt.urlParse s.reposURL = .ok u →
      (s.getUserRepositories rt w).2.sent = w.sent ++ [s.reposRequest]) ∧
    (∀ err, rt.urlParse s.reposURL = .error err →
      (s.getUserRepositories rt w).2.sent = w.sent) := by
  refine ⟨⟨?_, ?_, ?_, by decide⟩, fun u hu => ?_, fun err herr => ?_⟩
  · simp [GitHubService.reposRequest, GitHubService.authorize, HttpRequest.SetHeader]
  · simp [GitHubService.reposRequest, GitHubService.authorize, HttpRequest.SetHeader]
  · simp [GitHubService.reposRequest, GitHubService.authorize, HttpRequest.SetHeader,
      String.append_assoc]
  · rw [getUserRepositories_eq, hu]
    exact sent_of_exchanges w _ _ (roundTrip_exchanges s _ 200 rt.decodeRepositories w u)
  · rw [getUserRepositories_eq, herr, roundTrip_parse_error]

/-- C11, an instance: the repositories request of the test "Success" of `TestGetUserProfile`, sent
after the user request. -/
theorem C11_witness :
    ((profileTestService 200 userDocument reposDocument).getUserRepositories exampleRuntime
        (World.start 1)).2.sent =
      [{ Method := "GET",
         URL := "https://api.github.com/users/test-user/repos?type=owner&sort=updated&per_page=100",
         Header := [("Authorization", "token test-token"),
                    ("Accept", "application/vnd.github.v3+json")],
         Body := none }] :=
  (C11_repositories_request_is_one_get_with_query exampleRuntime
    (profileTestService 200 userDocument reposDocument) (World.start 1)).2.1 () rfl

/-- C12: every request the client sends, in GetRepository, CreateIssue, the user fetch, the
repositories fetch and GetUserProfile, carries the header `Authorization` with the value
`token ` followed by the configured token, and the header `Accept` with the value
`application/vnd.github.v3+json`; the two requests of GetUserProfile carry the same
credential. -/
theorem C12_every_request_carries_token_and_accept {σ : Type} (rt : Runtime)
    (s : GitHubService σ) (repoName : String) (issue : IssueRequest) (w : World σ) :
    (∀ ex : Exchange,
      (ex ∈ (s.GetRepository rt repoName w).2.since w ∨
        ex ∈ (s.CreateIssue rt repoName issue w).2.since w ∨
        ex ∈ (s.getUser rt w).2.since w ∨
        ex ∈ (s.getUserRepositories rt w).2.since w ∨
        ex ∈ (s.GetUserProfile rt w).2.since w) →
      ex.req.GetHeader "Authorization" = "token " ++ s.config.GitHub.Token ∧
      ex.req.GetHeader "Accept" = "application/vnd.github.v3+json") ∧
    s.userRequest.GetHeader "Authorization" = s.reposRequest.GetHeader "Authorization" := by
  refine ⟨fun ex hex => ?_, ?_⟩
  · rcases hex with h | h | h | h | h
    · obtain ⟨l, e, r⟩ := roundTrip_sends_req s (s.repositoryRequest repoName) 200
        rt.decodeRepository w (rt.urlParse (s.repositoryURL repoName))
      rw [← GetRepository_eq] at e
      rw [since_of_exchanges w _ l e] at h
      rw [r ex h]
      exact repositoryRequest_headers s repoName
    · obtain ⟨l, e, r⟩ := roundTrip_sends_req s (s.issueRequest rt repoName issue) 201
        rt.decodeIssueResponse w (rt.urlParse (s.issuesURL repoName))
      rw [← CreateIssue_eq] at e
      rw [since_of_exchanges w _ l e] at h
      rw [r ex h]
      exact issueRequest_headers rt s repoName issue
    · obtain ⟨l, e, r⟩ := roundTrip_sends_req s s.userRequest 200 rt.decodeUser w
        (rt.urlParse s.userURL)
      rw [← getUser_eq] at e
      rw [since_of_exchanges w _ l e] at h
      rw [r ex h]
      exact userRequest_headers s
    · obtain ⟨l, e, r⟩ := roundTrip_sends_req s s.reposRequest 200 rt.decodeRepositories w
        (rt.urlParse s.reposURL)
      rw [← getUserRepositories_eq] at e
      rw [since_of_exchanges w _ l e] at h
      rw [r ex h]
      exact reposRequest_headers s
    · obtain ⟨l, e, r⟩ := GetUserProfile_sends rt s w
      rw [since_of_exchanges w _ l e] at h
      rcases r ex h with hr | hr
      · rw [hr]
        exact userRequest_headers s
      · rw [hr]
        exact reposRequest_headers s
  · rw [(userRequest_headers s).1, (reposRequest_headers s).1]

/-- C12, an instance: the second request of the test "Success" of `TestGetUserProfile` and the
request of the test "Success" of `TestCreateIssue` carry the token of the test configuration. -/
theorem C12_witness :
    (profileTestService 200 userDocument reposDocument).reposRequest.GetHeader "Authorization" =
      "token test-token" ∧
    ((testService 201 issueDocument).issueRequest exampleRuntime "test-repo" testIssue).GetHeader
      "Accept" = "application/vnd.github.v3+json" :=
  ⟨((C12_every_request_carries_token_and_accept exampleRuntime
      (profileTestService 200 userDocument reposDocument) "test-repo" testIssue (World.start 0)).1
      ⟨(profileTestService 200 userDocument reposDocument).reposRequest,
        .ok { StatusCode := 200, Body := reposDocument }⟩
      (Or.inr (Or.inr (Or.inr (Or.inr (List.mem_cons_of_mem _ (List.mem_singleton.mpr rfl))))))).1,
   ((C12_every_request_carries_token_and_accept exampleRuntime
      (testService 201 issueDocument) "test-repo" testIssue (World.start ())).1
      ⟨(testService 201 issueDocument).issueRequest exampleRuntime "test-repo" testIssue,
        .ok { StatusCode := 201, Body := issueDocument }⟩
      (Or.inr (Or.inl (List.mem_singleton.mpr rfl)))).2⟩

/-- C13, the claim fails: with a configuration that allows the origin `https://app.example.com`
only, the request `GET /health` that carries the header `Origin: https://other.example.com` is
aborted by the CORS middleware, installed in front of every route, and answered 403. -/
theorem C13_counterexample :
    foreignHealthRequest.Method = "GET" ∧ foreignHealthRequest.Path = "/health" ∧
    ((SetupRouter exampleRuntime restrictedConfig (constTransport 200 "")).ServeHTTP
        exampleRuntime foreignHealthRequest (World.start ())).1 =
      .wrote { Status := 403, Body := "" } :=
  ⟨rfl, rfl, rfl⟩

/-- C13, amended: for every configuration, token and account name included, and every transport,
a request `GET /health` that the CORS middleware lets through is answered with status 200 and the
serialization of `gin.H{"status": "ok"}`, which is the text `{"status":"ok"}` when `json.Marshal`
renders that map so; no outbound call is made and the remote is left as it was.  When the CORS
middleware aborts the request, the answer has the status the middleware chose, and again no
outbound call is made. -/
theorem C13_health_is_200_without_remote_call {σ : Type} (rt : Runtime) (config : Config)
    (client : HttpRequest → σ → Except GoError HttpResponse × σ) (req : Request) (w : World σ)
    (hmethod : req.Method = "GET") (hpath : req.Path = "/health") :
    (rt.cors config.CORS.AllowOrigins req.Method req.Header = none →
      ((SetupRouter rt config client).ServeHTTP rt req w).1 =
          .wrote { Status := 200, Body := rt.Marshal (.H [("status", "ok")]) } ∧
        ((SetupRouter rt config client).ServeHTTP rt req w).2.exchanges = w.exchanges ∧
        ((SetupRouter rt config client).ServeHTTP rt req w).2.remote = w.remote) ∧
    (rt.cors config.CORS.AllowOrigins req.Method req.Header = none →
      rt.Marshal (.H [("status", "ok")]) = "\x7b\"status\":\"ok\"\x7d" →
      ((SetupRouter rt config client).ServeHTTP rt req w).1 =
          .wrote { Status := 200, Body := "\x7b\"status\":\"ok\"\x7d" }) ∧
    (∀ code, rt.cors config.CORS.AllowOrigins req.Method req.Header = some code →
      ((SetupRouter rt config client).ServeHTTP rt req w).1 =
          .wrote { Status := code, Body := "" } ∧
        ((SetupRouter rt config client).ServeHTTP rt req w).2.exchanges = w.exchanges) := by
  have hmatch : matchRoute "/health" "/health" = some [] := by decide
  have hget : getValue (SetupRouter rt config client).routes req.Method req.Path =
      some (fun _ w => (JSON rt 200 (.H [("status", "ok")]), w), []) := by
    simp [SetupRouter, getValue, hmethod, hpath, hmatch]
  have hchain : ∀ handler : HandlerFunc σ, (SetupRouter rt config client).chain handler =
      Logger (ErrorHandler rt (CORS rt config.CORS handler)) := fun _ => rfl
  have hpass : rt.cors config.CORS.AllowOrigins req.Method req.Header = none →
      (SetupRouter rt config client).ServeHTTP rt req w =
        (.wrote { Status := 200, Body := rt.Marshal (.H [("status", "ok")]) },
          w.logrus "info" "Request processed"
            [("status_code", toString 200), ("method", req.Method), ("path", req.Path)]) := by
    intro hcors
    simp only [Engine.ServeHTTP, hget, hchain]
    simp [Logger, ErrorHandler, CORS, hcors, JSON]
  refine ⟨fun hcors => ?_, fun hcors hm => ?_, fun code hcors => ?_⟩
  · rw [hpass hcors]
    simp [World.logrus]
  · rw [hpass hcors, hm]
  · simp only [Engine.ServeHTTP, hget, hchain]
    simp only [Logger, ErrorHandler, CORS, hcors]
    split_ifs <;> simp [World.logrus]

/-- C13 amended, an instance: the request `GET /health` of the integration test. -/
theorem C13_witness :
    ((SetupRouter exampleRuntime testConfig (constTransport 200 "")).ServeHTTP exampleRuntime
        (plainRequest "GET" "/health") (World.start ())).1 =
      .wrote { Status := 200, Body := "\x7b\"status\":\"ok\"\x7d" } ∧
    ((SetupRouter exampleRuntime testConfig (constTransport 200 "")).ServeHTTP exampleRuntime
        (plainRequest "GET" "/health") (World.start ())).2.exchanges = [] :=
  have h := C13_health_is_200_without_remote_call exampleRuntime testConfig (constTransport 200 "")
    (plainRequest "GET" "/health") (World.start ()) rfl rfl
  ⟨h.2.1 rfl rfl, (h.1 rfl).2.1⟩

/-- C14: for every profile, the JSON document written for it, the one the GetUserProfile handler
hands to `c.JSON`, reads back as the same profile: the same user, login included, and the same
repositories in the same order. -/
theorem C14_profile_json_round_trip (p : GithubProfile) :
    GithubProfile.fromJson (JSONValue.toJson (.GithubProfile p)) = .ok p ∧
    (∀ q, GithubProfile.fromJson (JSONValue.toJson (.GithubProfile p)) = .ok q →
      q.User.Login = p.User.Login ∧ q.Repositories = p.Repositories) := by
  have h : GithubProfile.fromJson (JSONValue.toJson (.GithubProfile p)) = .ok p := by
    simp [JSONValue.toJson, GithubProfile.toJson, GithubProfile.fromJson, Json.member,
      Json.userField, Json.repositoriesField, List.find?, UserResponse_fromJson_toJson,
      repositoriesFromItems_map_toJson]
  refine ⟨h, fun q hq => ?_⟩
  rw [h] at hq
  cases hq
  exact ⟨rfl, rfl⟩

/-- C14, an instance: the profile of the handler test reads back with the login `test-user` and
its two repositories. -/
theorem C14_witness :
    GithubProfile.fromJson (JSONValue.toJson (.GithubProfile mockProfile)) = .ok mockProfile ∧
    mockProfile.User.Login = "test-user" ∧ mockProfile.Repositories.length = 2 :=
  ⟨(C14_profile_json_round_trip mockProfile).1,
   ((C14_profile_json_round_trip mockProfile).2 mockProfile rfl).1, rfl⟩

/-- C15, the claim fails, on two counts.  The outermost middleware of the router built by
SetupRouter is Logger, which lets a panic through; ErrorHandler is the layer inside it.  And a
handler that has written a response with status 200 before it panics is answered for with that
status 200, the error document appended to its body, not with status 500. -/
theorem C15_counterexample :
    ((SetupRouter exampleRuntime testConfig (constTransport 200 "")).Handlers.head?.map
        fun outermost => (outermost faultyHandler (repositoryContext "x") (World.start ())).1) =
      some (.panicked "runtime error: invalid memory address or nil pointer dereference" none) ∧
    ((SetupRouter exampleRuntime testConfig (constTransport 200 "")).chain lateFaultyHandler
        (repositoryContext "x") (World.start ())).1 =
      .wrote { Status := 200,
               Body := "\x7b\"status\":\"ok\"\x7d\x7b\"error\":\"Internal server error\"\x7d" } :=
  ⟨rfl, rfl⟩

/-- C15, amended: the router built by SetupRouter runs every handler behind Logger, then
ErrorHandler, then the CORS middleware: ErrorHandler is the second layer, inside Logger.  For
every handler that panics on a request before it has written a response, ErrorHandler catches the
panic and the response is status 500 with the serialization of
`gin.H{"error": "Internal server error"}`, which is the text `{"error":"Internal server error"}`
when `json.Marshal` renders that map so; the same response leaves the whole chain.  No panic of
what runs inside ErrorHandler, before or after a write, gets past it or past the chain. -/
theorem C15_error_handler_turns_panic_into_500 {σ : Type} (rt : Runtime) (config : Config)
    (client : HttpRequest → σ → Except GoError HttpResponse × σ) (handler : HandlerFunc σ)
    (c : Context) (w w1 : World σ) (value : String)
    (hfault : handler c w = (.panicked value none, w1))
    (hcors : rt.cors config.CORS.AllowOrigins c.Request.Method c.Request.Header = none) :
    (SetupRouter rt config client).chain handler =
      Logger (ErrorHandler rt (CORS rt config.CORS handler)) ∧
    ErrorHandler rt handler c w =
      (.wrote { Status := 500, Body := rt.Marshal (.H [("error", "Internal server error")]) },
        w1.logrus "error" "Panic recovered" [("error", value)]) ∧
    ((SetupRouter rt config client).chain handler c w).1 =
      .wrote { Status := 500, Body := rt.Marshal (.H [("error", "Internal server error")]) } ∧
    (rt.Marshal (.H [("error", "Internal server error")]) =
        "\x7b\"error\":\"Internal server error\"\x7d" →
      ((SetupRouter rt config client).chain handler c w).1 =
        .wrote { Status := 500, Body := "\x7b\"error\":\"Internal server error\"\x7d" }) ∧
    (∀ (next : HandlerFunc σ) (c2 : Context) (w2 : World σ) (v : String) (wr : Option Response),
      (ErrorHandler rt next c2 w2).1 ≠ .panicked v wr ∧
      ((SetupRouter rt config client).chain next c2 w2).1 ≠ .panicked v wr) := by
  have hchain : ∀ h : HandlerFunc σ, (SetupRouter rt config client).chain h =
      Logger (ErrorHandler rt (CORS rt config.CORS h)) := fun _ => rfl
  have hcatch : ErrorHandler rt handler c w =
      (.wrote { Status := 500, Body := rt.Marshal (.H [("error", "Internal server error")]) },
        w1.logrus "error" "Panic recovered" [("error", value)]) := by
    simp [ErrorHandler, hfault, AbortWithStatusJSON, JSON]
  have hout : ((SetupRouter rt config client).chain handler c w).1 =
      .wrote { Status := 500, Body := rt.Marshal (.H [("error", "Internal server error")]) } := by
    have hpass : CORS rt config.CORS handler c w = handler c w := by simp [CORS, hcors]
    rw [hchain]
    simp [Logger, ErrorHandler, hpass, hfault, AbortWithStatusJSON, JSON]
  have hnever : ∀ (next : HandlerFunc σ) (c2 : Context) (w2 : World σ) (v : String)
      (wr : Option Response), (ErrorHandler rt next c2 w2).1 ≠ .panicked v wr := by
    intro next c2 w2 v wr
    unfold ErrorHandler
    cases hn : next c2 w2 with
    | mk out w3 =>
      cases out with
      | wrote r => simp
      | redirect code => simp
      | panicked v2 wr2 => cases wr2 <;> simp [AbortWithStatusJSON, JSON]
  refine ⟨hchain handler, hcatch, hout, fun hm => by rw [hout, hm], fun next c2 w2 v wr =>
    ⟨hnever next c2 w2 v wr, ?_⟩⟩
  rw [hchain]
  have hn := hnever (CORS rt config.CORS next) c2 w2 v wr
  unfold Logger
  cases he : ErrorHandler rt (CORS rt config.CORS next) c2 w2 with
  | mk out w3 =>
    rw [he] at hn
    cases out with
    | wrote r =>
      simp only
      split_ifs <;> simp
    | redirect code => simp
    | panicked v2 wr2 => simpa using hn

/-- C15 amended, an instance: a handler that panics on a nil pointer before writing. -/
theorem C15_witness :
    ((SetupRouter exampleRuntime testConfig (constTransport 200 "")).chain faultyHandler
        (repositoryContext "x") (World.start ())).1 =
      .wrote { Status := 500, Body := "\x7b\"error\":\"Internal server error\"\x7d" } :=
  (C15_error_handler_turns_panic_into_500 exampleRuntime testConfig (constTransport 200 "")
    faultyHandler (repositoryContext "x") (World.start ()) (World.start ())
    "runtime error: invalid memory address or nil pointer dereference" rfl rfl).2.2.2.1 rfl

/-- C17: the failure response of each of the three handlers does not depend on the error of the
service.  For the same request and any two services, in any two worlds, that fail with the errors
`e1` and `e2`, the handler writes the same response: status 500 and the fixed message
"Failed to retrieve GitHub profile", "Failed to retrieve repository information" or
"Failed to create issue".  (The service is reached in GetRepository when the repo name is not
empty, and in CreateIssue when moreover the body binds.) -/
theorem C17_failure_response_is_independent_of_the_error {σ τ : Type} (rt : Runtime)
    (h1 : GitHubHandler σ) (h2 : GitHubHandler τ) (c : Context) (w1 : World σ) (w2 : World τ)
    (e1 e2 : GoError) :
    (∀ wa wb, h1.service.GetUserProfile w1 = (.error e1, wa) →
      h2.service.GetUserProfile w2 = (.error e2, wb) →
      (h1.GetUserProfile rt c w1).1 = (h2.GetUserProfile rt c w2).1 ∧
      (h1.GetUserProfile rt c w1).1 =
        .wrote { Status := 500,
                 Body := rt.Marshal
                   (.ErrorResponse { Error := "Failed to retrieve GitHub profile" }) }) ∧
    (∀ wa wb, c.Param "repo" ≠ "" →
      h1.service.GetRepository (c.Param "repo") w1 = (.error e1, wa) →
      h2.service.GetRepository (c.Param "repo") w2 = (.error e2, wb) →
      (h1.GetRepository rt c w1).1 = (h2.GetRepository rt c w2).1 ∧
      (h1.GetRepository rt c w1).1 =
        .wrote { Status := 500,
                 Body := rt.Marshal
                   (.ErrorResponse { Error := "Failed to retrieve repository information" }) }) ∧
    (∀ issue wa wb, c.Param "repo" ≠ "" → ShouldBindJSON rt c = .ok issue →
      h1.service.CreateIssue (c.Param "repo") issue w1 = (.error e1, wa) →
      h2.service.CreateIssue (c.Param "repo") issue w2 = (.error e2, wb) →
      (h1.CreateIssue rt c w1).1 = (h2.CreateIssue rt c w2).1 ∧
      (h1.CreateIssue rt c w1).1 =
        .wrote { Status := 500,
                 Body := rt.Marshal (.ErrorResponse { Error := "Failed to create issue" }) }) := by
  refine ⟨fun wa wb ha hb => ?_, fun wa wb hrepo ha hb => ?_,
    fun issue wa wb hrepo hbind ha hb => ?_⟩
  · simp [GitHubHandler.GetUserProfile, ha, hb, JSON]
  · simp [GitHubHandler.GetRepository, hrepo, ha, hb, JSON]
  · simp [GitHubHandler.CreateIssue, hrepo, hbind, ha, hb, JSON]

/-- C17, an instance: the mock of the handler tests, which fails with "not found", and the client
behind a remote that answers 404, on the request `GET /github/non-existent-repo`. -/
theorem C17_witness :
    ((NewGitHubHandler failingMock.service).GetRepository exampleRuntime
        (repositoryContext "non-existent-repo") (World.start [])).1 =
      (((testService 404 notFoundDocument).handler exampleRuntime).GetRepository exampleRuntime
        (repositoryContext "non-existent-repo") (World.start ())).1 ∧
    ((NewGitHubHandler failingMock.service).GetRepository exampleRuntime
        (repositoryContext "non-existent-repo") (World.start [])).1 =
      .wrote { Status := 500,
               Body := "\x7b\"error\":\"Failed to retrieve repository information\"\x7d" } :=
  (C17_failure_response_is_independent_of_the_error exampleRuntime
    (NewGitHubHandler failingMock.service) ((testService 404 notFoundDocument).handler exampleRuntime)
    (repositoryContext "non-existent-repo") (World.start []) (World.start ())
    (.New "not found") (.Status 404)).2.1 _ _ (by decide) rfl rfl

/-- C18: when both sub-fetches succeed, GetUserProfile returns the profile whose user is the value
decoded from the answer to the user request and whose repositories are the list decoded from the
answer to the repositories request, as it is: same entries, same order, same length.  Nothing is
cut off: when the decoded list has more than 100 entries, so has the profile. -/
theorem C18_profile_is_the_two_decoded_values {σ : Type} (rt : Runtime) (s : GitHubService σ)
    (w w1 w2 : World σ) (user : UserResponse) (repos : List Repository)
    (huser : s.getUser rt w = (.ok user, w1))
    (hrepos : s.getUserRepositories rt w1 = (.ok repos, w2)) :
    s.GetUserProfile rt w = (.ok { User := user, Repositories := repos }, w2) ∧
    (∃ resp, (s.client s.userRequest w.remote).1 = .ok resp ∧ rt.decodeUser resp.Body = .ok user) ∧
    (∃ resp, (s.client s.reposRequest w1.remote).1 = .ok resp ∧
      rt.decodeRepositories resp.Body = .ok repos) ∧
    (∀ profile, (s.GetUserProfile rt w).1 = .ok profile →
      profile.User = user ∧ profile.Repositories = repos ∧
      profile.Repositories.length = repos.length ∧
      (100 < repos.length → 100 < profile.Repositories.length)) := by
  have hprofile : s.GetUserProfile rt w = (.ok { User := user, Repositories := repos }, w2) := by
    simp [GitHubService.GetUserProfile, huser, hrepos]
  refine ⟨hprofile, ?_, ?_, fun profile hp => ?_⟩
  · obtain ⟨_, resp, hres, _, hd⟩ := roundTrip_ok_inv s s.userRequest 200 rt.decodeUser w
      (rt.urlParse s.userURL) user (by rw [← getUser_eq, huser])
    exact ⟨resp, hres, hd⟩
  · obtain ⟨_, resp, hres, _, hd⟩ := roundTrip_ok_inv s s.reposRequest 200 rt.decodeRepositories
      w1 (rt.urlParse s.reposURL) repos (by rw [← getUserRepositories_eq, hrepos])
    exact ⟨resp, hres, hd⟩
  · rw [hprofile] at hp
    cases hp
    exact ⟨rfl, rfl, rfl, fun h => h⟩

/-- C18, an instance: the remote answers the repositories request with a document of 101
entries, and the profile has 101 repositories. -/
theorem C18_witness :
    ∃ profile,
      ((profileTestService 200 userDocument manyRepositoriesDocument).GetUserProfile bulkRuntime
        (World.start 0)).1 = .ok profile ∧
      profile.User.Login = "test-user" ∧ profile.Repositories = manyRepositories ∧
      profile.Repositories.length = 101 := by
  have hurl : bulkRuntime.urlParse
      (profileTestService 200 userDocument manyRepositoriesDocument).reposURL = .ok () := rfl
  have huser : (profileTestService 200 userDocument manyRepositoriesDocument).getUser bulkRuntime
      (World.start 0) =
      (.ok { Login := "test-user", Name := "Test User", Followers := 10, Following := 20 },
        ((profileTestService 200 userDocument manyRepositoriesDocument).getUser bulkRuntime
          (World.start 0)).2) := rfl
  have hres : ((profileTestService 200 userDocument manyRepositoriesDocument).client
      (profileTestService 200 userDocument manyRepositoriesDocument).reposRequest
      ((profileTestService 200 userDocument manyRepositoriesDocument).getUser bulkRuntime
        (World.start 0)).2.remote).1 =
      .ok { StatusCode := 200, Body := manyRepositoriesDocument } := rfl
  have hdecode : bulkRuntime.decodeRepositories manyRepositoriesDocument = .ok manyRepositories := by
    simp [bulkRuntime]
  have hrepos : ((profileTestService 200 userDocument manyRepositoriesDocument).getUserRepositories
      bulkRuntime ((profileTestService 200 userDocument manyRepositoriesDocument).getUser
        bulkRuntime (World.start 0)).2).1 = .ok manyRepositories := by
    rw [getUserRepositories_eq, hurl]
    exact roundTrip_decoded _ _ 200 _ _ () _ _ hres rfl hdecode
  have hpair := eq_pair_of_fst
    ((profileTestService 200 userDocument manyRepositoriesDocument).getUserRepositories
      bulkRuntime ((profileTestService 200 userDocument manyRepositoriesDocument).getUser
        bulkRuntime (World.start 0)).2) (.ok manyRepositories) hrepos
  exact ⟨{ User := { Login := "test-user", Name := "Test User", Followers := 10, Following := 20 },
           Repositories := manyRepositories },
    congrArg Prod.fst
      (C18_profile_is_the_two_decoded_values bulkRuntime
        (profileTestService 200 userDocument manyRepositoriesDocument) (World.start 0)
        ((profileTestService 200 userDocument manyRepositoriesDocument).getUser bulkRuntime
          (World.start 0)).2
        ((profileTestService 200 userDocument manyRepositoriesDocument).getUserRepositories
          bulkRuntime ((profileTestService 200 userDocument manyRepositoriesDocument).getUser
            bulkRuntime (World.start 0)).2).2
        { Login := "test-user", Name := "Test User", Followers := 10, Following := 20 }
        manyRepositories huser hpair).1,
    rfl, rfl, by simp [manyRepositories]⟩

end Cactro
